import Mathlib

/-!
Shallow embedding of the Sentinel-1 change-detection monitoring service
(`src/config.py`, `src/gee_manager.py`, `src/change_detector.py`,
`src/notifier.py`, `src/models.py`, `src/monitor.py`, `src/app.py`).

Modelling conventions:
* timestamps (`datetime` / `system:time_start`) are milliseconds since the
  epoch, as `Nat`;
* Python floats are modelled as `ℚ`;
* the remote Earth Engine computation (speckle filtering, log-ratio,
  `reduceRegion`) is an oracle parameter returning the scalar statistics the
  code reads back via `getInfo`; the local post-processing of those scalars
  is embedded faithfully;
* a GeoJSON geometry is an opaque region token (`Nat`); an image's
  `footprint` lists the region tokens it covers (`filterBounds`);
* SQLAlchemy sessions: mutations are pending until `commit`; `rollback`
  discards them, so each embedded endpoint computes the committed database
  that results from the call.
-/

namespace S1

/-! ### Python / formatting helpers -/

/-- Python truthiness of an optional string (`None` and `''` are falsy). -/
def strTruthy : Option String → Bool
  | none => false
  | some s => !(s == "")

/-- A `b.isPrefixOf`-style check on character lists (used for substring search). -/
def startsWithChars : List Char → List Char → Bool
  | [], _ => true
  | _ :: _, [] => false
  | a :: as, b :: bs => a == b && startsWithChars as bs

/-- Substring search on character lists. -/
def hasSubChars (needle : List Char) : List Char → Bool
  | [] => startsWithChars needle []
  | b :: bs => startsWithChars needle (b :: bs) || hasSubChars needle bs

/-- Python's `needle in hay` on strings: substring containment. -/
def strContains (hay needle : String) : Bool :=
  hasSubChars needle.toList hay.toList

/-- Python's `round` (banker's rounding, half to even) on rationals. -/
def roundHalfEven (q : ℚ) : ℤ :=
  let f : ℤ := ⌊q⌋
  let r : ℚ := q - (f : ℚ)
  if r < 1/2 then f
  else if (1:ℚ)/2 < r then f + 1
  else if f % 2 = 0 then f else f + 1

/-- Python's `round(q, dp)`. -/
def roundTo (dp : Nat) (q : ℚ) : ℚ :=
  (roundHalfEven (q * ((10:ℚ) ^ dp)) : ℚ) / (10:ℚ) ^ dp

/-- Left-pad a numeral with zeros to a given width. -/
def padZeros (width : Nat) (n : Nat) : String :=
  let s := toString n
  String.mk (List.replicate (width - s.length) '0') ++ s

/-- Python's `f"{q:.dpf}"` fixed-point formatting. -/
def formatFixed (dp : Nat) (q : ℚ) : String :=
  let scaled : ℤ := roundHalfEven (q * ((10:ℚ) ^ dp))
  let sign := if scaled < 0 then "-" else ""
  let n := scaled.natAbs
  sign ++ toString (n / 10 ^ dp) ++ "." ++ padZeros dp (n % 10 ^ dp)

/-- Milliseconds in one day. -/
def dayMs : Nat := 86400000

/-- Truncate a millisecond timestamp to the start of its UTC day
(the effect of passing `strftime('%Y-%m-%d')` strings to `filterDate`). -/
def dayStart (t : Nat) : Nat := t / dayMs * dayMs

/-- Civil date from days since 1970-01-01 (proleptic Gregorian). -/
def civilFromDays (z0 : Nat) : Nat × Nat × Nat :=
  let z := z0 + 719468
  let era := z / 146097
  let doe := z % 146097
  let yoe := (doe - doe / 1460 + doe / 36524 - doe / 146096) / 365
  let y0 := yoe + era * 400
  let doy := doe - (365 * yoe + yoe / 4 - yoe / 100)
  let mp := (5 * doy + 2) / 153
  let d := doy - (153 * mp + 2) / 5 + 1
  let m := if mp < 10 then mp + 3 else mp - 9
  let y := if m ≤ 2 then y0 + 1 else y0
  (y, m, d)

/-- Embeds `strftime('%Y-%m-%d %H:%M UTC')` on a millisecond timestamp. -/
def strftimeYmdHM (ms : Nat) : String :=
  let p := civilFromDays (ms / dayMs)
  let rem := ms % dayMs
  toString p.1 ++ "-" ++ padZeros 2 p.2.1 ++ "-" ++ padZeros 2 p.2.2 ++ " " ++
    padZeros 2 (rem / 3600000) ++ ":" ++ padZeros 2 (rem % 3600000 / 60000) ++ " UTC"

/-- Embeds `datetime.isoformat()` on a millisecond timestamp (microsecond precision). -/
def isoformat (ms : Nat) : String :=
  let p := civilFromDays (ms / dayMs)
  let rem := ms % dayMs
  toString p.1 ++ "-" ++ padZeros 2 p.2.1 ++ "-" ++ padZeros 2 p.2.2 ++ "T" ++
    padZeros 2 (rem / 3600000) ++ ":" ++ padZeros 2 (rem % 3600000 / 60000) ++ ":" ++
    padZeros 2 (rem % 60000 / 1000) ++ "." ++ padZeros 6 (rem % 1000 * 1000)

/-! ### JSON values (outbound payloads) -/

/-- JSON values, used for the outbound webhook payloads. -/
inductive Json where
  | str (s : String)
  | num (q : ℚ)
  | bool (b : Bool)
  | null
  | arr (xs : List Json)
  | obj (fields : List (String × Json))

/-- The top-level keys of a JSON object (empty for non-objects). -/
def Json.keys : Json → List String
  | .obj fields => fields.map Prod.fst
  | _ => []

/-! ### Configuration (`src/config.py`) -/

namespace Config

/-- Embeds `Config.INSTRUMENT_MODE` (hard-coded `'IW'`). -/
def INSTRUMENT_MODE : String := "IW"

/-- Embeds `Config.POLARIZATION` (hard-coded `'VV'`). -/
def POLARIZATION : String := "VV"

/-- Embeds `Config.MIN_CHANGE_AREA_SQKM` (hard-coded `0.01`). -/
def MIN_CHANGE_AREA_SQKM : ℚ := 1/100

end Config

/-! ### Imagery catalog (`src/gee_manager.py`) -/

/-- An opaque GeoJSON geometry: a region token. -/
abbrev Geo := Nat

/-- Metadata of one Sentinel-1 catalog image (the properties the code reads). -/
structure Image where
  /-- The `system:time_start` property, milliseconds. -/
  date : Nat
  /-- The `system:index` property. -/
  image_id : String
  /-- The `orbitProperties_pass` property (`'ASCENDING'` or `'DESCENDING'`). -/
  orbit_direction : String
  /-- The `relativeOrbitNumber_start` property. -/
  relative_orbit_number : Int
  /-- The `platform_number` property (`'A'` or `'C'`). -/
  platform_number : String
  /-- Region tokens the image covers (`filterBounds`). -/
  footprint : List Nat
  /-- The `instrumentMode` property. -/
  instrument_mode : String
  /-- The `transmitterReceiverPolarisation` property. -/
  polarisations : List String
deriving DecidableEq, Repr

/-- Descending order on image acquisition time
(`collection.sort('system:time_start', False)`). -/
def dateGe (a b : Image) : Prop := b.date ≤ a.date

instance : DecidableRel dateGe := fun a b => Nat.decLe b.date a.date

instance : IsTotal Image dateGe := ⟨fun a b => Nat.le_total b.date a.date⟩

instance : IsTrans Image dateGe := ⟨fun _ _ _ h1 h2 => le_trans h2 h1⟩

/-- Sort a collection newest-first. -/
def sortByDateDesc (l : List Image) : List Image := List.insertionSort dateGe l

/-- Absolute difference of two timestamps (`.subtract(target).abs()`). -/
def timeDiff (a b : Nat) : Nat := max a b - min a b

/-- Ascending order on distance to a target time (`.sort('time_diff')`). -/
def diffLe (target : Nat) (a b : Image) : Prop :=
  timeDiff a.date target ≤ timeDiff b.date target

instance (target : Nat) : DecidableRel (diffLe target) :=
  fun a b => Nat.decLe (timeDiff a.date target) (timeDiff b.date target)

/-- Embeds `if cond: collection = collection.filter(...)` (the guarded orbit filters
of `get_sentinel1_collection`). -/
def guardFilter (cond : Bool) (f : Image → Bool) (l : List Image) : List Image :=
  if cond then l.filter f else l

/-- Embeds `GEEManager.get_sentinel1_collection`: filter the catalog by bounds, date
range, instrument mode, polarisation, and the optional orbit filters.
`orbit_direction` and `platform` use Python truthiness (`if orbit_direction:`),
`relative_orbit` uses `is not None`. -/
def get_sentinel1_collection (catalog : List Image) (geometry : Geo)
    (start_date end_date : Nat) (orbit_direction : Option String)
    (relative_orbit : Option Int) (platform : Option String) : List Image :=
  let collection := catalog.filter fun img =>
    decide (geometry ∈ img.footprint) &&
    decide (start_date ≤ img.date) && decide (img.date < end_date) &&
    (img.instrument_mode == Config.INSTRUMENT_MODE) &&
    decide (Config.POLARIZATION ∈ img.polarisations)
  let collection := guardFilter (strTruthy orbit_direction)
    (fun img => img.orbit_direction == orbit_direction.getD "") collection
  let collection := guardFilter relative_orbit.isSome
    (fun img => img.relative_orbit_number == relative_orbit.getD 0) collection
  guardFilter (strTruthy platform)
    (fun img => img.platform_number == platform.getD "") collection

/-- Embeds `GEEManager.get_latest_image`: most recent image of the last 30 days
(no orbit filters). -/
def get_latest_image (catalog : List Image) (geometry : Geo) (now : Nat) :
    Option Image :=
  let collection := get_sentinel1_collection catalog geometry
    (dayStart (now - 30 * dayMs)) (dayStart now) none none none
  (sortByDateDesc collection).head?

/-- Embeds `GEEManager.get_image_by_date_range`: the image closest to `target`
within ±3 days (no orbit filters). -/
def get_image_by_date_range (catalog : List Image) (geometry : Geo)
    (target : Nat) : Option Image :=
  let collection := get_sentinel1_collection catalog geometry
    (dayStart (target - 3 * dayMs)) (dayStart (target + 3 * dayMs)) none none none
  (List.insertionSort (diffLe target) collection).head?

/-- Embeds `GEEManager.check_for_new_images`: images of the filtered collection
between `last_checked`'s day and today, newest first, restricted to those
strictly newer than `last_checked`. -/
def check_for_new_images (catalog : List Image) (geometry : Geo)
    (last_checked now : Nat) (orbit_direction : Option String)
    (relative_orbit : Option Int) (platform : Option String) : List Image :=
  let collection := get_sentinel1_collection catalog geometry
    (dayStart last_checked) (dayStart now) orbit_direction relative_orbit platform
  (sortByDateDesc collection).filter fun img => decide (last_checked < img.date)

/-! ### Change detection (`src/change_detector.py`) -/

/-- Scalar statistics and artifact URLs retrieved back from the remote
computation (the `getInfo` / `getThumbURL` calls of
`ChangeDetector.log_ratio_change_detection`). -/
structure RemoteStats where
  /-- From `stats.get('VV_sum')`: number of changed pixels in the thresholded mask. -/
  changed_pixels : ℚ
  /-- mean of `|log ratio|` over the AOI, in dB. -/
  avg_change_db : ℚ
  /-- From `aoi.area().divide(1e6)`: AOI area in km². -/
  aoi_area_sqkm : ℚ
  /-- change-map thumbnail URL (`''` when generation failed). -/
  change_map_url : String
  /-- reference-image thumbnail URL. -/
  ref_image_url : String
  /-- new-image thumbnail URL. -/
  new_image_url : String
deriving DecidableEq, Repr

/-- The remote computation: given reference image, new image, AOI geometry and
threshold it returns the scalar statistics, or raises. -/
abbrev RemoteCalc := Image → Image → Geo → ℚ → Except String RemoteStats

/-- The dict returned by `ChangeDetector.log_ratio_change_detection`. -/
structure ChangeStats where
  changes_detected : Bool
  change_area_sqkm : ℚ
  change_percentage : ℚ
  avg_change_db : ℚ
  change_map_url : String
  ref_image_url : String
  new_image_url : String
  aoi_area_sqkm : ℚ
  threshold_db : ℚ
deriving DecidableEq, Repr

/-- Embeds `ChangeDetector.log_ratio_change_detection`: local post-processing of the
remote statistics. Fails when a remote call raises. -/
def log_ratio_change_detection (remote : RemoteCalc)
    (reference_image new_image : Image) (geometry : Geo)
    (threshold_db : Option ℚ) (cfg_change_threshold_db : ℚ) :
    Except String ChangeStats :=
  let threshold_db := threshold_db.getD cfg_change_threshold_db
  match remote reference_image new_image geometry threshold_db with
  | .error e => .error e
  | .ok stats =>
    let pixel_area_sqkm : ℚ := 1/10000
    let change_area_sqkm := stats.changed_pixels * pixel_area_sqkm
    let change_percentage :=
      if 0 < stats.aoi_area_sqkm then change_area_sqkm / stats.aoi_area_sqkm * 100 else 0
    let changes_detected := decide (Config.MIN_CHANGE_AREA_SQKM ≤ change_area_sqkm)
    .ok { changes_detected
          change_area_sqkm := roundTo 4 change_area_sqkm
          change_percentage := roundTo 2 change_percentage
          avg_change_db := roundTo 2 stats.avg_change_db
          change_map_url := stats.change_map_url
          ref_image_url := stats.ref_image_url
          new_image_url := stats.new_image_url
          aoi_area_sqkm := roundTo 2 stats.aoi_area_sqkm
          threshold_db := threshold_db }

/-- Result dict of `ChangeDetector.detect_changes_for_aoi` in the successful
case (the change statistics plus the actual image dates and ids). -/
structure AoiDetection where
  stats : ChangeStats
  reference_date_actual : Nat
  new_date_actual : Nat
  reference_image_id : String
  new_image_id : String
deriving DecidableEq, Repr

/-- Outcome of `ChangeDetector.detect_changes_for_aoi`: the error dict
(`{'error': ..., 'changes_detected': False}`), a normal result, or a raised
exception propagating to the caller. -/
inductive DetectRet where
  | errDict (msg : String)
  | ok (r : AoiDetection)
  | raised (msg : String)
deriving DecidableEq, Repr

/-- Embeds `ChangeDetector.detect_changes_for_aoi`: resolve the two dates to images
(±3 days, no orbit filters), then run the log-ratio detection. -/
def detect_changes_for_aoi (catalog : List Image) (remote : RemoteCalc)
    (aoi_geometry : Geo) (reference_date new_date : Nat)
    (threshold_db : Option ℚ) (cfg_change_threshold_db : ℚ) : DetectRet :=
  match get_image_by_date_range catalog aoi_geometry reference_date,
        get_image_by_date_range catalog aoi_geometry new_date with
  | some ref_info, some new_info =>
    match log_ratio_change_detection remote ref_info new_info aoi_geometry
        threshold_db cfg_change_threshold_db with
    | .error e => .raised e
    | .ok results =>
      .ok { stats := results
            reference_date_actual := ref_info.date
            new_date_actual := new_info.date
            reference_image_id := ref_info.image_id
            new_image_id := new_info.image_id }
  | _, _ => .errDict "Could not find images for specified dates"

/-! ### Notifier (`src/notifier.py`) -/

/-- The keys of the results dict that the payload builders read. -/
structure AlertResults where
  new_date_actual : Nat
  change_area_sqkm : ℚ
  change_percentage : ℚ
  avg_change_db : ℚ
  change_map_url : String
deriving DecidableEq, Repr

/-- The `Notifier` instance state after `__init__`. `webhook_url` is the resolved
`webhook_url or Config.WEBHOOK_URL` (a string, `''` meaning unset). -/
structure Notifier where
  webhook_url : String
  is_slack : Bool
  is_discord : Bool
deriving DecidableEq, Repr

/-- Embeds `Notifier.__init__(webhook_url)` with `Config.WEBHOOK_URL = cfg_url`. -/
def notifierInit (arg : Option String) (cfg_url : String) : Notifier :=
  let url := if strTruthy arg then arg.getD "" else cfg_url
  { webhook_url := url
    is_slack := if url == "" then false else strContains url "slack.com"
    is_discord := if url == "" then false else strContains url "discord.com" }

/-- Embeds `Notifier._build_slack_message`. -/
def build_slack_message (base_url : String) (aoi_name : String)
    (results : AlertResults) (aoi_id : Nat) : Json :=
  let date_str := strftimeYmdHM results.new_date_actual
  let blocks : List Json :=
    [Json.obj [("type", Json.str "header"),
       ("text", Json.obj [("type", Json.str "plain_text"),
         ("text", Json.str ("Change Detected: " ++ aoi_name)),
         ("emoji", Json.bool true)])],
     Json.obj [("type", Json.str "section"),
       ("fields", Json.arr
         [Json.obj [("type", Json.str "mrkdwn"),
            ("text", Json.str ("*Image Date:*\n" ++ date_str))],
          Json.obj [("type", Json.str "mrkdwn"),
            ("text", Json.str ("*Changed Area:*\n" ++
              formatFixed 4 results.change_area_sqkm ++ " km²"))],
          Json.obj [("type", Json.str "mrkdwn"),
            ("text", Json.str ("*Change %:*\n" ++
              formatFixed 2 results.change_percentage ++ "%"))],
          Json.obj [("type", Json.str "mrkdwn"),
            ("text", Json.str ("*Magnitude:*\n" ++
              formatFixed 2 results.avg_change_db ++ " dB"))]])]]
  let blocks :=
    if results.change_map_url == "" then blocks
    else blocks ++
      [Json.obj [("type", Json.str "image"),
         ("image_url", Json.str results.change_map_url),
         ("alt_text", Json.str ("Change detection map for " ++ aoi_name))]]
  let blocks := blocks ++
    [Json.obj [("type", Json.str "context"),
       ("elements", Json.arr
         [Json.obj [("type", Json.str "mrkdwn"),
            ("text", Json.str ("View details at " ++ base_url ++ "/results/" ++
              toString aoi_id))]])]]
  Json.obj [("blocks", Json.arr blocks)]

/-- Embeds `Notifier._build_discord_message` (`now` models `datetime.utcnow()` for the
embed timestamp). -/
def build_discord_message (base_url : String) (now : Nat) (aoi_name : String)
    (results : AlertResults) (aoi_id : Nat) : Json :=
  let date_str := strftimeYmdHM results.new_date_actual
  let embed : List (String × Json) :=
    [("title", Json.str ("Change Detected: " ++ aoi_name)),
     ("color", Json.num 16744192),
     ("fields", Json.arr
       [Json.obj [("name", Json.str "Image Date"),
          ("value", Json.str date_str), ("inline", Json.bool true)],
        Json.obj [("name", Json.str "Changed Area"),
          ("value", Json.str (formatFixed 4 results.change_area_sqkm ++ " km²")),
          ("inline", Json.bool true)],
        Json.obj [("name", Json.str "Change Percentage"),
          ("value", Json.str (formatFixed 2 results.change_percentage ++ "%")),
          ("inline", Json.bool true)],
        Json.obj [("name", Json.str "Magnitude"),
          ("value", Json.str (formatFixed 2 results.avg_change_db ++ " dB")),
          ("inline", Json.bool true)]]),
     ("footer", Json.obj [("text", Json.str ("View details at " ++ base_url ++
        "/results/" ++ toString aoi_id))]),
     ("timestamp", Json.str (isoformat now))]
  let embed :=
    if results.change_map_url == "" then embed
    else embed ++ [("image", Json.obj [("url", Json.str results.change_map_url)])]
  Json.obj [("embeds", Json.arr [Json.obj embed])]

/-- Embeds `Notifier._build_generic_message`. -/
def build_generic_message (base_url : String) (aoi_name : String)
    (results : AlertResults) (aoi_id : Nat) : Json :=
  Json.obj
    [("aoi_name", Json.str aoi_name),
     ("aoi_id", Json.num aoi_id),
     ("image_date", Json.str (strftimeYmdHM results.new_date_actual)),
     ("changes_detected", Json.bool true),
     ("change_area_sqkm", Json.num results.change_area_sqkm),
     ("change_percentage", Json.num results.change_percentage),
     ("avg_change_db", Json.num results.avg_change_db),
     ("change_map_url", Json.str results.change_map_url),
     ("details_url", Json.str (base_url ++ "/results/" ++ toString aoi_id))]

/-- What a notifier call did: its return value, and the HTTP POSTs it
attempted (url, JSON payload). -/
structure SendResult where
  returned : Bool
  requests : List (String × Json)

/-- Embeds `Notifier.send_change_alert`. `post_ok` models whether the outbound POST
succeeds (`requests.post` + `raise_for_status`). -/
def send_change_alert (n : Notifier) (base_url : String) (now : Nat)
    (aoi_name : String) (results : AlertResults) (aoi_id : Nat)
    (post_ok : Bool) : SendResult :=
  if n.webhook_url == "" then { returned := false, requests := [] }
  else
    let payload :=
      if n.is_slack then build_slack_message base_url aoi_name results aoi_id
      else if n.is_discord then build_discord_message base_url now aoi_name results aoi_id
      else build_generic_message base_url aoi_name results aoi_id
    { returned := post_ok, requests := [(n.webhook_url, payload)] }

/-- Embeds `Notifier.test_connection`. -/
def test_connection (n : Notifier) (post_ok : Bool) : SendResult :=
  if n.webhook_url == "" then { returned := false, requests := [] }
  else
    let payload :=
      if n.is_slack then
        Json.obj [("text", Json.str "Sentinel-1 Monitor Test - Connection Successful!")]
      else
        Json.obj [("content", Json.str "Sentinel-1 Monitor Test - Connection Successful!")]
    { returned := post_ok, requests := [(n.webhook_url, payload)] }

/-! ### Persistence model (`src/models.py`) -/

/-- A row of the `aois` table. -/
structure AOIRec where
  id : Nat
  name : String
  geometry : Geo
  created_date : Nat
  active : Bool
  last_checked : Option Nat
  threshold_db : ℚ
  orbit_direction : Option String
  relative_orbit_number : Option Int
  platform_number : Option String
deriving DecidableEq, Repr

/-- A row of the `analyses` table. -/
structure AnalysisRec where
  id : Nat
  aoi_id : Nat
  reference_date : Nat
  new_image_date : Nat
  analysis_date : Nat
  changes_detected : Bool
  change_score : ℚ
  change_area_sqkm : ℚ
  change_percentage : ℚ
  change_map_url : Option String
  ref_image_url : Option String
  new_image_url : Option String
  notes : Option String
  false_positive : Bool
  user_notes : Option String
deriving DecidableEq, Repr

/-- The committed database state. -/
structure DB where
  aois : List AOIRec
  analyses : List AnalysisRec
  next_aoi_id : Nat
  next_analysis_id : Nat
deriving DecidableEq, Repr

/-- Embeds `session.get(AOI, aoi_id)`: primary-key lookup. -/
def findAoi (db : DB) (aoi_id : Nat) : Option AOIRec :=
  db.aois.find? fun a => a.id == aoi_id

/-- Embeds `session.get(Analysis, analysis_id)`. -/
def findAnalysis (db : DB) (analysis_id : Nat) : Option AnalysisRec :=
  db.analyses.find? fun a => a.id == analysis_id

/-- Descending order on `Analysis.new_image_date`. -/
def analysisDateGe (a b : AnalysisRec) : Prop := b.new_image_date ≤ a.new_image_date

instance : DecidableRel analysisDateGe :=
  fun a b => Nat.decLe b.new_image_date a.new_image_date

instance : IsTotal AnalysisRec analysisDateGe :=
  ⟨fun a b => Nat.le_total b.new_image_date a.new_image_date⟩

instance : IsTrans AnalysisRec analysisDateGe :=
  ⟨fun _ _ _ h1 h2 => le_trans h2 h1⟩

/-- Embeds `query(Analysis).filter_by(aoi_id).order_by(new_image_date.desc()).first()`:
the most recent analysis of an AOI. -/
def lastAnalysisFor (db : DB) (aoi_id : Nat) : Option AnalysisRec :=
  (List.insertionSort analysisDateGe
    (db.analyses.filter fun a => a.aoi_id == aoi_id)).head?

/-- Commit of `aoi.last_checked = t` alone. -/
def setLastChecked (db : DB) (aoi_id : Nat) (t : Nat) : DB :=
  { db with aois := db.aois.map fun x =>
      if x.id == aoi_id then { x with last_checked := some t } else x }

/-- Commit of `session.add(analysis)` together with `aoi.last_checked = t`. -/
def commitAnalysis (db : DB) (aoi_id : Nat) (a : AnalysisRec) (t : Nat) : DB :=
  { aois := db.aois.map fun x =>
      if x.id == aoi_id then { x with last_checked := some t } else x
    analyses := db.analyses ++ [a]
    next_aoi_id := db.next_aoi_id
    next_analysis_id := db.next_analysis_id + 1 }

/-- Commit of `session.add(analysis)` alone (no `last_checked` update). -/
def addAnalysis (db : DB) (a : AnalysisRec) : DB :=
  { db with analyses := db.analyses ++ [a]
            next_analysis_id := db.next_analysis_id + 1 }

/-! ### Monitoring loop (`src/monitor.py`) -/

/-- The environment one cycle runs in: the imagery catalog, the wall clock,
the remote computation, per-AOI failure switches for the fallible external
calls, and the relevant configuration values. -/
structure MonitorEnv where
  catalog : List Image
  now : Nat
  remote : RemoteCalc
  /-- whether the GEE catalog query for this AOI id succeeds. -/
  query_ok : Nat → Bool
  /-- whether `session.commit()` for this AOI id succeeds. -/
  commit_ok : Nat → Bool
  /-- whether the webhook POST for this AOI id succeeds. -/
  post_ok : Nat → Bool
  webhook_url : String
  base_url : String
  cfg_change_threshold_db : ℚ

/-- How `SatelliteMonitor.check_aoi` ended for one AOI. -/
inductive CheckOutcome where
  /-- no prior analysis: skip, waiting for initialization. -/
  | no_baseline
  /-- the GEE query raised: caught, logged, return. -/
  | query_error
  /-- no new images: only `last_checked` was committed. -/
  | no_new_images
  /-- detection returned the `'error'` dict: return. -/
  | detect_error (msg : String)
  /-- an exception during detection: caught, rolled back. -/
  | detect_raised (msg : String)
  /-- the commit of the analysis raised: caught, rolled back. -/
  | persist_error
  /-- an analysis row was committed; `alert` records the
  `send_change_alert` call when one was made. -/
  | analyzed (a : AnalysisRec) (alert : Option SendResult)

/-- The fields of the detection results dict that the notifier reads. -/
def alertOf (r : AoiDetection) : AlertResults :=
  { new_date_actual := r.new_date_actual
    change_area_sqkm := r.stats.change_area_sqkm
    change_percentage := r.stats.change_percentage
    avg_change_db := r.stats.avg_change_db
    change_map_url := r.stats.change_map_url }

/-- Embeds `SatelliteMonitor.check_aoi`. A `.error` result is an exception escaping
`check_aoi` (to be caught by `check_all_aois`); every other failure is handled
inside as in the source. The note's float formatting (`f"{threshold_db}"`) is
approximated by `toString`. -/
def check_aoi (env : MonitorEnv) (db : DB) (aoi : AOIRec) :
    Except String (DB × CheckOutcome) :=
  match lastAnalysisFor db aoi.id with
  | none => .ok (db, .no_baseline)
  | some last_analysis =>
    if !env.query_ok aoi.id then .ok (db, .query_error)
    else
      match check_for_new_images env.catalog aoi.geometry
          last_analysis.new_image_date env.now none none none with
      | [] =>
        if env.commit_ok aoi.id then
          .ok (setLastChecked db aoi.id env.now, .no_new_images)
        else .error "commit failed"
      | latest_new_image :: _ =>
        match detect_changes_for_aoi env.catalog env.remote aoi.geometry
            last_analysis.new_image_date latest_new_image.date
            (some aoi.threshold_db) env.cfg_change_threshold_db with
        | .raised msg => .ok (db, .detect_raised msg)
        | .errDict msg => .ok (db, .detect_error msg)
        | .ok results =>
          let analysis : AnalysisRec :=
            { id := db.next_analysis_id
              aoi_id := aoi.id
              reference_date := last_analysis.new_image_date
              new_image_date := results.new_date_actual
              analysis_date := env.now
              changes_detected := results.stats.changes_detected
              change_score := results.stats.avg_change_db
              change_area_sqkm := results.stats.change_area_sqkm
              change_percentage := results.stats.change_percentage
              change_map_url := some results.stats.change_map_url
              ref_image_url := some results.stats.ref_image_url
              new_image_url := some results.stats.new_image_url
              notes := some ("Automatic analysis (threshold: " ++
                toString aoi.threshold_db ++ " dB)")
              false_positive := false
              user_notes := none }
          if !env.commit_ok aoi.id then .ok (db, .persist_error)
          else
            let db' := commitAnalysis db aoi.id analysis env.now
            if results.stats.changes_detected then
              let send := send_change_alert (notifierInit none env.webhook_url)
                env.base_url env.now aoi.name (alertOf results) aoi.id
                (env.post_ok aoi.id)
              .ok (db', .analyzed analysis (some send))
            else .ok (db', .analyzed analysis none)

/-- What one cycle recorded for one AOI. -/
inductive CycleResult where
  /-- The case where `check_aoi` returned normally. -/
  | completed (out : CheckOutcome)
  /-- The case where `check_aoi` raised: caught, logged, `continue`. -/
  | failed (msg : String)

/-- The `for aoi in aois: try ... except ... continue` loop of
`SatelliteMonitor.check_all_aois`. -/
def runAois (env : MonitorEnv) : DB → List AOIRec → DB × List (Nat × CycleResult)
  | db, [] => (db, [])
  | db, aoi :: rest =>
    match check_aoi env db aoi with
    | .ok (db', out) =>
      let r := runAois env db' rest
      (r.1, (aoi.id, .completed out) :: r.2)
    | .error e =>
      let r := runAois env db rest
      (r.1, (aoi.id, .failed e) :: r.2)

/-- Embeds `SatelliteMonitor.check_all_aois`: process every active AOI in turn. -/
def check_all_aois (env : MonitorEnv) (db : DB) : DB × List (Nat × CycleResult) :=
  let aois := db.aois.filter fun a => a.active
  if aois.isEmpty then (db, []) else runAois env db aois

/-! ### HTTP API (`src/app.py`) -/

/-- Request body of `POST /api/aois`. -/
structure CreateRequest where
  name : Option String
  geometry : Option Geo
  threshold_db : Option ℚ
deriving DecidableEq, Repr

/-- Response of `create_aoi`. -/
inductive CreateResp where
  /-- 400: name or geometry missing. -/
  | bad_request
  /-- 201. -/
  | created (id : Nat)
  /-- 500: exception, rolled back. -/
  | server_error (msg : String)
deriving DecidableEq, Repr

/-- Embeds `create_aoi` (`POST /api/aois`): insert the AOI, then try to pin the
orbit fields from the latest image and store the baseline analysis.
`commit_ok` is the first commit; `gee_init_ok` covers the whole baseline
block (its failure is caught with only a warning). -/
def create_aoi (env : MonitorEnv) (gee_init_ok commit_ok : Bool) (db : DB)
    (data : CreateRequest) : DB × CreateResp :=
  if !strTruthy data.name || data.geometry.isNone then (db, .bad_request)
  else
    let geom := data.geometry.getD 0
    let aoi : AOIRec :=
      { id := db.next_aoi_id
        name := data.name.getD ""
        geometry := geom
        created_date := env.now
        active := true
        last_checked := none
        threshold_db := data.threshold_db.getD env.cfg_change_threshold_db
        orbit_direction := none
        relative_orbit_number := none
        platform_number := none }
    if !commit_ok then (db, .server_error "commit failed")
    else
      let db1 := { db with aois := db.aois ++ [aoi]
                           next_aoi_id := db.next_aoi_id + 1 }
      if !gee_init_ok then (db1, .created aoi.id)
      else
        match get_latest_image env.catalog geom env.now with
        | none => (db1, .created aoi.id)
        | some latest =>
          let analysis : AnalysisRec :=
            { id := db1.next_analysis_id
              aoi_id := aoi.id
              reference_date := latest.date
              new_image_date := latest.date
              analysis_date := env.now
              changes_detected := false
              change_score := 0
              change_area_sqkm := 0
              change_percentage := 0
              change_map_url := none
              ref_image_url := some ""
              new_image_url := some ""
              notes := some "Baseline image"
              false_positive := false
              user_notes := none }
          let db2 :=
            { db1 with
              aois := db1.aois.map fun x =>
                if x.id == aoi.id then
                  { x with orbit_direction := some latest.orbit_direction
                           relative_orbit_number := some latest.relative_orbit_number
                           platform_number := some latest.platform_number
                           last_checked := some latest.date }
                else x
              analyses := db1.analyses ++ [analysis]
              next_analysis_id := db1.next_analysis_id + 1 }
          (db2, .created aoi.id)

/-- Request body of `PUT /api/aois/<id>` (only the keys the endpoint reads). -/
structure UpdateRequest where
  name : Option String
  active : Option Bool
  threshold_db : Option ℚ
deriving DecidableEq, Repr

/-- Response of `update_aoi` / `delete_aoi`. -/
inductive SimpleResp where
  | not_found
  | success
  | server_error (msg : String)
deriving DecidableEq, Repr

/-- Embeds `update_aoi` (`PUT /api/aois/<id>`): update name / active / threshold
when present in the request. -/
def update_aoi (commit_ok : Bool) (db : DB) (aoi_id : Nat)
    (data : UpdateRequest) : DB × SimpleResp :=
  match findAoi db aoi_id with
  | none => (db, .not_found)
  | some _ =>
    if !commit_ok then (db, .server_error "commit failed")
    else
      ({ db with aois := db.aois.map fun x =>
           if x.id == aoi_id then
             { x with name := data.name.getD x.name
                      active := data.active.getD x.active
                      threshold_db := data.threshold_db.getD x.threshold_db }
           else x }, .success)

/-- Embeds `delete_aoi` (`DELETE /api/aois/<id>`): remove the AOI and (cascade) its
analyses. -/
def delete_aoi (commit_ok : Bool) (db : DB) (aoi_id : Nat) : DB × SimpleResp :=
  match findAoi db aoi_id with
  | none => (db, .not_found)
  | some _ =>
    if !commit_ok then (db, .server_error "commit failed")
    else
      ({ db with aois := db.aois.filter fun x => !(x.id == aoi_id)
                 analyses := db.analyses.filter fun a => !(a.aoi_id == aoi_id) },
       .success)

/-- Response of `manual_analyze`. -/
inductive ManualResp where
  /-- 404. -/
  | not_found
  /-- 400: no baseline image. -/
  | no_baseline
  /-- 200: message, no new images. -/
  | no_new_images
  /-- 200: success. -/
  | success (analysis_id : Nat) (changes_detected : Bool)
  /-- 500: exception, rolled back. -/
  | server_error (msg : String)
deriving DecidableEq, Repr

/-- Embeds `manual_analyze` (`POST /api/aois/<id>/analyze`). Unlike the monitoring
loop it passes the AOI's pinned orbit direction and relative orbit to the
catalog query (platform intentionally unconstrained). It does not check for
the `'error'` key, so an error dict from the detector raises a `KeyError`
that the handler surfaces as a 500. -/
def manual_analyze (env : MonitorEnv) (commit_ok : Bool) (db : DB)
    (aoi_id : Nat) : DB × ManualResp :=
  match findAoi db aoi_id with
  | none => (db, .not_found)
  | some aoi =>
    match lastAnalysisFor db aoi_id with
    | none => (db, .no_baseline)
    | some last_analysis =>
      if !env.query_ok aoi.id then (db, .server_error "GEE query failed")
      else
        match check_for_new_images env.catalog aoi.geometry
            last_analysis.new_image_date env.now
            aoi.orbit_direction aoi.relative_orbit_number none with
        | [] => (db, .no_new_images)
        | first :: _ =>
          match detect_changes_for_aoi env.catalog env.remote aoi.geometry
              last_analysis.new_image_date first.date
              (some aoi.threshold_db) env.cfg_change_threshold_db with
          | .raised msg => (db, .server_error msg)
          | .errDict _ => (db, .server_error "KeyError: new_date_actual")
          | .ok results =>
            let analysis : AnalysisRec :=
              { id := db.next_analysis_id
                aoi_id := aoi.id
                reference_date := last_analysis.new_image_date
                new_image_date := results.new_date_actual
                analysis_date := env.now
                changes_detected := results.stats.changes_detected
                change_score := results.stats.avg_change_db
                change_area_sqkm := results.stats.change_area_sqkm
                change_percentage := results.stats.change_percentage
                change_map_url := some results.stats.change_map_url
                ref_image_url := some results.stats.ref_image_url
                new_image_url := some results.stats.new_image_url
                notes := none
                false_positive := false
                user_notes := none }
            if !commit_ok then (db, .server_error "commit failed")
            else
              (commitAnalysis db aoi.id analysis env.now,
               .success analysis.id results.stats.changes_detected)

/-- Response of `test_analysis`. -/
inductive TestResp where
  | not_found
  /-- 400: fewer than two images. -/
  | not_enough_images (found : Nat)
  | success (analysis_id : Nat) (changes_detected : Bool)
  | server_error (msg : String)
deriving DecidableEq, Repr

/-- Milliseconds of `2024-01-01T00:00:00Z`. -/
def t20240101 : Nat := 1704067200000

/-- Embeds `test_analysis` (`POST /api/aois/<id>/test-analysis`): compare the two
most recent images since 2024-01-01 (orbit-filtered) and store the result,
without touching `last_checked`. -/
def test_analysis (env : MonitorEnv) (commit_ok : Bool) (db : DB)
    (aoi_id : Nat) : DB × TestResp :=
  match findAoi db aoi_id with
  | none => (db, .not_found)
  | some aoi =>
    if !env.query_ok aoi.id then (db, .server_error "GEE query failed")
    else
      let collection := get_sentinel1_collection env.catalog aoi.geometry
        (dayStart t20240101) (dayStart env.now)
        aoi.orbit_direction aoi.relative_orbit_number none
      match (sortByDateDesc collection).take 2 with
      | [image1, image2] =>
        let p := if image1.date < image2.date then (image1, image2)
                 else (image2, image1)
        match log_ratio_change_detection env.remote p.1 p.2 aoi.geometry
            (some aoi.threshold_db) env.cfg_change_threshold_db with
        | .error msg => (db, .server_error msg)
        | .ok results =>
          let analysis : AnalysisRec :=
            { id := db.next_analysis_id
              aoi_id := aoi.id
              reference_date := p.1.date
              new_image_date := p.2.date
              analysis_date := env.now
              changes_detected := results.changes_detected
              change_score := results.avg_change_db
              change_area_sqkm := results.change_area_sqkm
              change_percentage := results.change_percentage
              change_map_url := some results.change_map_url
              ref_image_url := some results.ref_image_url
              new_image_url := some results.new_image_url
              notes := some ("TEST ANALYSIS (Latest 2 historical images, " ++
                toString ((p.2.date - p.1.date) / dayMs) ++ " days apart)")
              false_positive := false
              user_notes := none }
          if !commit_ok then (db, .server_error "commit failed")
          else (addAnalysis db analysis, .success analysis.id results.changes_detected)
      | l => (db, .not_enough_images l.length)

/-- Request body of `POST /api/analyses/<id>/feedback`. -/
structure FeedbackRequest where
  false_positive : Option Bool
  notes : Option String
deriving DecidableEq, Repr

/-- Embeds `mark_false_positive` (`POST /api/analyses/<id>/feedback`). -/
def mark_false_positive (commit_ok : Bool) (db : DB) (analysis_id : Nat)
    (data : FeedbackRequest) : DB × SimpleResp :=
  match findAnalysis db analysis_id with
  | none => (db, .not_found)
  | some _ =>
    if !commit_ok then (db, .server_error "commit failed")
    else
      ({ db with analyses := db.analyses.map fun a =>
           if a.id == analysis_id then
             { a with false_positive := data.false_positive.getD true
                      user_notes := some (data.notes.getD "") }
           else a }, .success)

/-- One state-changing operation of the system: the mutating HTTP endpoints
and a monitoring cycle. -/
inductive Op where
  | createAoi (data : CreateRequest) (gee_init_ok commit_ok : Bool)
  | updateAoi (aoi_id : Nat) (data : UpdateRequest) (commit_ok : Bool)
  | deleteAoi (aoi_id : Nat) (commit_ok : Bool)
  | manualAnalyze (aoi_id : Nat) (commit_ok : Bool)
  | testAnalysis (aoi_id : Nat) (commit_ok : Bool)
  | feedback (analysis_id : Nat) (data : FeedbackRequest) (commit_ok : Bool)
  | monitorCycle

/-- The database after one operation. -/
def applyOp (env : MonitorEnv) (db : DB) : Op → DB
  | .createAoi d g c => (create_aoi env g c db d).1
  | .updateAoi i d c => (update_aoi c db i d).1
  | .deleteAoi i c => (delete_aoi c db i).1
  | .manualAnalyze i c => (manual_analyze env c db i).1
  | .testAnalysis i c => (test_analysis env c db i).1
  | .feedback i d c => (mark_false_positive c db i d).1
  | .monitorCycle => (check_all_aois env db).1

/-! ### Lemmas about the catalog queries -/

instance (target : Nat) : IsTotal Image (diffLe target) :=
  ⟨fun a b => Nat.le_total (timeDiff a.date target) (timeDiff b.date target)⟩

instance (target : Nat) : IsTrans Image (diffLe target) :=
  ⟨fun _ _ _ h1 h2 => le_trans h1 h2⟩

theorem timeDiff_self (a : Nat) : timeDiff a a = 0 := by
  simp [timeDiff]

theorem eq_of_timeDiff_eq_zero {a b : Nat} (h : timeDiff a b = 0) : a = b := by
  rcases Nat.le_total a b with hle | hle
  · rw [timeDiff, Nat.max_eq_right hle, Nat.min_eq_left hle] at h; omega
  · rw [timeDiff, Nat.max_eq_left hle, Nat.min_eq_right hle] at h; omega

theorem mem_of_guardFilter {cond : Bool} {f : Image → Bool} {l : List Image}
    {img : Image} (h : img ∈ guardFilter cond f l) : img ∈ l := by
  unfold guardFilter at h
  split at h
  · exact List.mem_of_mem_filter h
  · exact h

/-- Membership in the orbit-unfiltered collection. -/
theorem mem_collection_none {catalog : List Image} {geometry : Geo}
    {s e : Nat} {img : Image} :
    img ∈ get_sentinel1_collection catalog geometry s e none none none ↔
      img ∈ catalog ∧ geometry ∈ img.footprint ∧ s ≤ img.date ∧ img.date < e ∧
      img.instrument_mode = Config.INSTRUMENT_MODE ∧
      Config.POLARIZATION ∈ img.polarisations := by
  simp [get_sentinel1_collection, guardFilter, strTruthy, List.mem_filter, and_assoc]

/-- Membership in the collection with any filters implies membership in the
catalog and the basic (bounds / date / mode / polarisation) filters. -/
theorem mem_collection_sub {catalog : List Image} {geometry : Geo}
    {s e : Nat} {od : Option String} {ro : Option Int} {p : Option String}
    {img : Image} (h : img ∈ get_sentinel1_collection catalog geometry s e od ro p) :
    img ∈ catalog ∧ geometry ∈ img.footprint ∧ s ≤ img.date ∧ img.date < e ∧
      img.instrument_mode = Config.INSTRUMENT_MODE ∧
      Config.POLARIZATION ∈ img.polarisations := by
  simp only [get_sentinel1_collection] at h
  replace h := mem_of_guardFilter (mem_of_guardFilter (mem_of_guardFilter h))
  simp only [List.mem_filter, Bool.and_eq_true, decide_eq_true_eq, beq_iff_eq] at h
  tauto

/-- Membership in `check_for_new_images`: the collection filters plus the
strict date bound. -/
theorem mem_check_for_new_images {catalog : List Image} {geometry : Geo}
    {last_checked now : Nat} {od : Option String} {ro : Option Int}
    {p : Option String} {img : Image} :
    img ∈ check_for_new_images catalog geometry last_checked now od ro p ↔
      img ∈ get_sentinel1_collection catalog geometry (dayStart last_checked)
        (dayStart now) od ro p ∧ last_checked < img.date := by
  unfold check_for_new_images
  rw [List.mem_filter]
  constructor
  · rintro ⟨h1, h2⟩
    exact ⟨(List.perm_insertionSort dateGe _).mem_iff.mp h1, by simpa using h2⟩
  · rintro ⟨h1, h2⟩
    exact ⟨(List.perm_insertionSort dateGe _).mem_iff.mpr h1, by simpa using h2⟩

/-- The candidate list is sorted newest-first. -/
theorem sorted_check_for_new_images (catalog : List Image) (geometry : Geo)
    (last_checked now : Nat) (od : Option String) (ro : Option Int)
    (p : Option String) :
    List.Sorted dateGe (check_for_new_images catalog geometry last_checked now od ro p) :=
  (List.sorted_insertionSort dateGe _).filter _

/-- The head of a list sorted newest-first has the maximal date. -/
theorem head_date_max {l : List Image} (hs : List.Sorted dateGe l) {x : Image}
    (hx : l.head? = some x) : ∀ y ∈ l, y.date ≤ x.date := by
  cases l with
  | nil => cases hx
  | cons z t =>
    obtain rfl : z = x := by simpa using hx
    intro y hy
    rw [List.mem_cons] at hy
    rcases hy with rfl | hy
    · exact le_refl _
    · exact List.rel_of_sorted_cons hs y hy

theorem dayMs_pos : 0 < dayMs := by decide

theorem dayStart_le (t : Nat) : dayStart t ≤ t := Nat.div_mul_le_self t dayMs

theorem lt_dayStart_add (t : Nat) : t < dayStart t + dayMs := by
  simp only [dayStart, dayMs]
  omega

theorem dayStart_add_mul (t k : Nat) : dayStart (t + k * dayMs) = dayStart t + k * dayMs := by
  simp only [dayStart, dayMs]
  rw [Nat.add_mul_div_right _ _ (by omega : (0:Nat) < 86400000), Nat.add_mul]

/-- An image at exactly the target instant lies inside the ±3-day window of
`get_image_by_date_range`. -/
theorem target_in_window (target : Nat) :
    dayStart (target - 3 * dayMs) ≤ target ∧ target < dayStart (target + 3 * dayMs) := by
  constructor
  · exact le_trans (dayStart_le _) (Nat.sub_le _ _)
  · rw [dayStart_add_mul]
    have := lt_dayStart_add target
    simp only [dayMs] at *
    omega

/-- If the catalog holds a basic-filter-matching image dated exactly `target`,
then `get_image_by_date_range` returns an image dated exactly `target`. -/
theorem get_image_by_date_range_date {catalog : List Image} {geometry : Geo}
    {target : Nat} {cand : Image} (hc : cand ∈ catalog)
    (hg : geometry ∈ cand.footprint)
    (hm : cand.instrument_mode = Config.INSTRUMENT_MODE)
    (hp : Config.POLARIZATION ∈ cand.polarisations)
    (hd : cand.date = target) {res : Image}
    (h : get_image_by_date_range catalog geometry target = some res) :
    res.date = target := by
  simp only [get_image_by_date_range] at h
  set coll := get_sentinel1_collection catalog geometry
    (dayStart (target - 3 * dayMs)) (dayStart (target + 3 * dayMs)) none none none with hcoll
  have hmemc : cand ∈ coll := by
    rw [hcoll, mem_collection_none]
    have hw := target_in_window target
    exact ⟨hc, hg, by omega, by omega, hm, hp⟩
  have hsorted : List.Sorted (diffLe target) (List.insertionSort (diffLe target) coll) :=
    List.sorted_insertionSort (diffLe target) coll
  have hmem' : cand ∈ List.insertionSort (diffLe target) coll :=
    (List.perm_insertionSort (diffLe target) coll).mem_iff.mpr hmemc
  cases hsl : List.insertionSort (diffLe target) coll with
  | nil => rw [hsl] at hmem'; cases hmem'
  | cons z t =>
    rw [hsl] at h hsorted hmem'
    have hzres : z = res := by simpa using h
    have hle : timeDiff z.date target ≤ timeDiff cand.date target := by
      rw [List.mem_cons] at hmem'
      rcases hmem' with rfl | hmem'
      · exact le_refl _
      · exact List.rel_of_sorted_cons hsorted cand hmem'
    rw [hd, timeDiff_self] at hle
    rw [← hzres]
    exact eq_of_timeDiff_eq_zero (Nat.le_zero.mp hle)

/-! ### Lemmas about the persistence queries -/

/-- The most recent analysis returned by `lastAnalysisFor` belongs to the AOI
and has the maximal `new_image_date` among its analyses. -/
theorem lastAnalysisFor_spec {db : DB} {aid : Nat} {last : AnalysisRec}
    (h : lastAnalysisFor db aid = some last) :
    last ∈ db.analyses ∧ last.aoi_id = aid ∧
      ∀ p ∈ db.analyses, p.aoi_id = aid →
        p.new_image_date ≤ last.new_image_date := by
  unfold lastAnalysisFor at h
  set fl := db.analyses.filter (fun a => a.aoi_id == aid) with hfl
  have hsorted := List.sorted_insertionSort analysisDateGe fl
  have hperm := List.perm_insertionSort analysisDateGe fl
  cases hsl : List.insertionSort analysisDateGe fl with
  | nil => rw [hsl] at h; cases h
  | cons z t =>
    rw [hsl] at h hsorted hperm
    have hz : z = last := by simpa using h
    have hzfl : z ∈ fl := hperm.mem_iff.mp (List.mem_cons_self z t)
    have hzmem := List.mem_filter.mp (hfl ▸ hzfl)
    refine ⟨hz ▸ hzmem.1, hz ▸ (by simpa using hzmem.2), ?_⟩
    intro p hp hpid
    have hpfl : p ∈ fl := by
      rw [hfl, List.mem_filter]
      exact ⟨hp, by simpa using hpid⟩
    have hpz : p ∈ z :: t := hperm.mem_iff.mpr hpfl
    rw [List.mem_cons] at hpz
    rw [← hz]
    rcases hpz with rfl | hpz
    · exact le_refl _
    · exact List.rel_of_sorted_cons hsorted p hpz

/-! ### Inversion of the detection and monitoring steps -/

/-- Inversion of a successful `detect_changes_for_aoi`. -/
theorem detect_ok_inv {catalog : List Image} {remote : RemoteCalc} {geom : Geo}
    {rd nd : Nat} {thr : Option ℚ} {cfg : ℚ} {r : AoiDetection}
    (h : detect_changes_for_aoi catalog remote geom rd nd thr cfg = .ok r) :
    ∃ ref_info new_info stats,
      get_image_by_date_range catalog geom rd = some ref_info ∧
      get_image_by_date_range catalog geom nd = some new_info ∧
      remote ref_info new_info geom (thr.getD cfg) = .ok stats ∧
      r.reference_date_actual = ref_info.date ∧
      r.new_date_actual = new_info.date ∧
      r.stats.changes_detected =
        decide (Config.MIN_CHANGE_AREA_SQKM ≤ stats.changed_pixels * (1/10000)) ∧
      r.stats.change_area_sqkm = roundTo 4 (stats.changed_pixels * (1/10000)) := by
  unfold detect_changes_for_aoi at h
  split at h
  case h_2 => cases h
  rename_i ref_info new_info heq1 heq2
  unfold log_ratio_change_detection at h
  simp only at h
  cases hrem : remote ref_info new_info geom (thr.getD cfg) with
  | error e => rw [hrem] at h; cases h
  | ok stats =>
    rw [hrem] at h
    simp only [DetectRet.ok.injEq] at h
    subst h
    exact ⟨ref_info, new_info, stats, heq1, heq2, hrem, rfl, rfl, rfl, rfl⟩

/-- Inversion of a `check_aoi` run that committed an analysis. -/
theorem check_aoi_analyzed_inv {env : MonitorEnv} {db : DB} {aoi : AOIRec}
    {db' : DB} {a : AnalysisRec} {alert : Option SendResult}
    (h : check_aoi env db aoi = .ok (db', .analyzed a alert)) :
    ∃ last c rest results,
      lastAnalysisFor db aoi.id = some last ∧
      check_for_new_images env.catalog aoi.geometry last.new_image_date env.now
        none none none = c :: rest ∧
      detect_changes_for_aoi env.catalog env.remote aoi.geometry
        last.new_image_date c.date (some aoi.threshold_db)
        env.cfg_change_threshold_db = .ok results ∧
      a.aoi_id = aoi.id ∧
      a.reference_date = last.new_image_date ∧
      a.new_image_date = results.new_date_actual ∧
      a.changes_detected = results.stats.changes_detected ∧
      a.change_area_sqkm = results.stats.change_area_sqkm ∧
      db' = commitAnalysis db aoi.id a env.now ∧
      alert.isSome = a.changes_detected ∧
      (∀ s, alert = some s →
        s = send_change_alert (notifierInit none env.webhook_url) env.base_url
          env.now aoi.name (alertOf results) aoi.id (env.post_ok aoi.id)) := by
  unfold check_aoi at h
  cases hl : lastAnalysisFor db aoi.id with
  | none => rw [hl] at h; simp at h
  | some last =>
    rw [hl] at h
    simp only at h
    split at h
    · simp at h
    cases hc : check_for_new_images env.catalog aoi.geometry last.new_image_date
        env.now none none none with
    | nil =>
      rw [hc] at h
      simp only at h
      split at h <;> simp at h
    | cons c rest =>
      rw [hc] at h
      simp only at h
      cases hd : detect_changes_for_aoi env.catalog env.remote aoi.geometry
          last.new_image_date c.date (some aoi.threshold_db)
          env.cfg_change_threshold_db with
      | raised msg => rw [hd] at h; simp at h
      | errDict msg => rw [hd] at h; simp at h
      | ok results =>
        rw [hd] at h
        simp only at h
        cases hcommit : env.commit_ok aoi.id with
        | false => simp [hcommit] at h
        | true =>
          simp only [hcommit, Bool.not_true, Bool.false_eq_true, if_false] at h
          cases hflag : results.stats.changes_detected with
          | true =>
            simp only [hflag, if_true] at h
            injection h with h
            injection h with hdb hout
            injection hout with ha halert
            subst hdb
            subst ha
            subst halert
            refine ⟨last, c, rest, results, rfl, hc, hd, rfl, rfl, rfl, hflag.symm,
              rfl, rfl, by simp [hflag], ?_⟩
            intro s hs
            cases hs
            rfl
          | false =>
            simp only [hflag, Bool.false_eq_true, if_false] at h
            injection h with h
            injection h with hdb hout
            injection hout with ha halert
            subst hdb
            subst ha
            subst halert
            refine ⟨last, c, rest, results, rfl, hc, hd, rfl, rfl, rfl, hflag.symm,
              rfl, rfl, by simp [hflag], ?_⟩
            intro s hs
            cases hs

/-- Inversion of a `check_aoi` run that found no new images: the database is
exactly the old one with the AOI's `last_checked` set to now. -/
theorem check_aoi_no_new_inv {env : MonitorEnv} {db : DB} {aoi : AOIRec}
    {db' : DB} (h : check_aoi env db aoi = .ok (db', .no_new_images)) :
    db' = setLastChecked db aoi.id env.now := by
  unfold check_aoi at h
  cases hl : lastAnalysisFor db aoi.id with
  | none => rw [hl] at h; simp at h
  | some last =>
    rw [hl] at h
    simp only at h
    split at h
    · simp at h
    cases hc : check_for_new_images env.catalog aoi.geometry last.new_image_date
        env.now none none none with
    | cons c rest =>
      rw [hc] at h
      simp only at h
      cases hd : detect_changes_for_aoi env.catalog env.remote aoi.geometry
          last.new_image_date c.date (some aoi.threshold_db)
          env.cfg_change_threshold_db with
      | raised msg => rw [hd] at h; simp at h
      | errDict msg => rw [hd] at h; simp at h
      | ok results =>
        rw [hd] at h
        simp only at h
        split at h
        · simp at h
        split at h <;> simp at h
    | nil =>
      rw [hc] at h
      simp only at h
      split at h
      · simp only [Except.ok.injEq, Prod.mk.injEq] at h
        exact h.1.symm
      · cases h

/-- Inversion of a `check_aoi` run whose detection raised: rolled back. -/
theorem check_aoi_detect_raised_inv {env : MonitorEnv} {db : DB} {aoi : AOIRec}
    {db' : DB} {m : String}
    (h : check_aoi env db aoi = .ok (db', .detect_raised m)) : db' = db := by
  unfold check_aoi at h
  cases hl : lastAnalysisFor db aoi.id with
  | none => rw [hl] at h; simp at h
  | some last =>
    rw [hl] at h
    simp only at h
    split at h
    · simp at h
    cases hc : check_for_new_images env.catalog aoi.geometry last.new_image_date
        env.now none none none with
    | nil =>
      rw [hc] at h
      simp only at h
      split at h
      · simp at h
      · cases h
    | cons c rest =>
      rw [hc] at h
      simp only at h
      cases hd : detect_changes_for_aoi env.catalog env.remote aoi.geometry
          last.new_image_date c.date (some aoi.threshold_db)
          env.cfg_change_threshold_db with
      | raised msg =>
        rw [hd] at h
        simp only [Except.ok.injEq, Prod.mk.injEq, CheckOutcome.detect_raised.injEq] at h
        exact h.1.symm
      | errDict msg => rw [hd] at h; simp at h
      | ok results =>
        rw [hd] at h
        simp only at h
        split at h
        · simp at h
        split at h <;> simp at h

/-- Inversion of a `check_aoi` run whose persisting commit failed: rolled
back. -/
theorem check_aoi_persist_error_inv {env : MonitorEnv} {db : DB} {aoi : AOIRec}
    {db' : DB} (h : check_aoi env db aoi = .ok (db', .persist_error)) :
    db' = db := by
  unfold check_aoi at h
  cases hl : lastAnalysisFor db aoi.id with
  | none => rw [hl] at h; simp at h
  | some last =>
    rw [hl] at h
    simp only at h
    split at h
    · simp at h
    cases hc : check_for_new_images env.catalog aoi.geometry last.new_image_date
        env.now none none none with
    | nil =>
      rw [hc] at h
      simp only at h
      split at h
      · simp at h
      · cases h
    | cons c rest =>
      rw [hc] at h
      simp only at h
      cases hd : detect_changes_for_aoi env.catalog env.remote aoi.geometry
          last.new_image_date c.date (some aoi.threshold_db)
          env.cfg_change_threshold_db with
      | raised msg => rw [hd] at h; simp at h
      | errDict msg => rw [hd] at h; simp at h
      | ok results =>
        rw [hd] at h
        simp only at h
        split at h
        · simp only [Except.ok.injEq, Prod.mk.injEq] at h
          exact h.1.symm
        split at h <;> simp at h

/-- Any normal `check_aoi` return leaves the database as it was, with just a
`last_checked` touch, or with one committed analysis. -/
theorem check_aoi_db_shape {env : MonitorEnv} {db : DB} {aoi : AOIRec}
    {db' : DB} {out : CheckOutcome}
    (h : check_aoi env db aoi = .ok (db', out)) :
    db' = db ∨ db' = setLastChecked db aoi.id env.now ∨
      ∃ a, db' = commitAnalysis db aoi.id a env.now := by
  unfold check_aoi at h
  cases hl : lastAnalysisFor db aoi.id with
  | none =>
    rw [hl] at h
    simp only [Except.ok.injEq, Prod.mk.injEq] at h
    exact Or.inl h.1.symm
  | some last =>
    rw [hl] at h
    simp only at h
    split at h
    · simp only [Except.ok.injEq, Prod.mk.injEq] at h
      exact Or.inl h.1.symm
    cases hc : check_for_new_images env.catalog aoi.geometry last.new_image_date
        env.now none none none with
    | nil =>
      rw [hc] at h
      simp only at h
      split at h
      · simp only [Except.ok.injEq, Prod.mk.injEq] at h
        exact Or.inr (Or.inl h.1.symm)
      · cases h
    | cons c rest =>
      rw [hc] at h
      simp only at h
      cases hd : detect_changes_for_aoi env.catalog env.remote aoi.geometry
          last.new_image_date c.date (some aoi.threshold_db)
          env.cfg_change_threshold_db with
      | raised msg =>
        rw [hd] at h
        simp only [Except.ok.injEq, Prod.mk.injEq] at h
        exact Or.inl h.1.symm
      | errDict msg =>
        rw [hd] at h
        simp only [Except.ok.injEq, Prod.mk.injEq] at h
        exact Or.inl h.1.symm
      | ok results =>
        rw [hd] at h
        simp only at h
        split at h
        · simp only [Except.ok.injEq, Prod.mk.injEq] at h
          exact Or.inl h.1.symm
        split at h
        all_goals
          simp only [Except.ok.injEq, Prod.mk.injEq] at h
        all_goals
          exact Or.inr (Or.inr ⟨_, h.1.symm⟩)

/-- A 500 response from `manual_analyze` always leaves the database
unchanged (the transaction was rolled back). -/
theorem manual_analyze_server_error_inv {env : MonitorEnv} {ck : Bool}
    {db : DB} {aid : Nat} {db' : DB} {m : String}
    (h : manual_analyze env ck db aid = (db', .server_error m)) : db' = db := by
  unfold manual_analyze at h
  cases hf : findAoi db aid with
  | none => rw [hf] at h; simp at h
  | some aoi =>
    rw [hf] at h
    simp only at h
    cases hl : lastAnalysisFor db aid with
    | none => rw [hl] at h; simp at h
    | some last =>
      rw [hl] at h
      simp only at h
      split at h
      · simp only [Prod.mk.injEq, ManualResp.server_error.injEq] at h
        exact h.1.symm
      cases hc : check_for_new_images env.catalog aoi.geometry
          last.new_image_date env.now aoi.orbit_direction
          aoi.relative_orbit_number none with
      | nil => rw [hc] at h; simp at h
      | cons first rest =>
        rw [hc] at h
        simp only at h
        cases hd : detect_changes_for_aoi env.catalog env.remote aoi.geometry
            last.new_image_date first.date (some aoi.threshold_db)
            env.cfg_change_threshold_db with
        | raised msg =>
          rw [hd] at h
          simp only [Prod.mk.injEq, ManualResp.server_error.injEq] at h
          exact h.1.symm
        | errDict msg =>
          rw [hd] at h
          simp only [Prod.mk.injEq, ManualResp.server_error.injEq] at h
          exact h.1.symm
        | ok results =>
          rw [hd] at h
          simp only at h
          split at h
          · simp only [Prod.mk.injEq, ManualResp.server_error.injEq] at h
            exact h.1.symm
          · simp at h

/-- The endpoint `manual_analyze` can only report success when its commit succeeded. -/
theorem manual_analyze_success_commit {env : MonitorEnv} {db : DB}
    {aid : Nat} {db' : DB} {i : Nat} {cd : Bool}
    (h : manual_analyze env false db aid = (db', .success i cd)) : False := by
  unfold manual_analyze at h
  cases hf : findAoi db aid with
  | none => rw [hf] at h; simp at h
  | some aoi =>
    rw [hf] at h
    simp only at h
    cases hl : lastAnalysisFor db aid with
    | none => rw [hl] at h; simp at h
    | some last =>
      rw [hl] at h
      simp only at h
      split at h
      · simp at h
      cases hc : check_for_new_images env.catalog aoi.geometry
          last.new_image_date env.now aoi.orbit_direction
          aoi.relative_orbit_number none with
      | nil => rw [hc] at h; simp at h
      | cons first rest =>
        rw [hc] at h
        simp only at h
        cases hd : detect_changes_for_aoi env.catalog env.remote aoi.geometry
            last.new_image_date first.date (some aoi.threshold_db)
            env.cfg_change_threshold_db with
        | raised msg => rw [hd] at h; simp at h
        | errDict msg => rw [hd] at h; simp at h
        | ok results =>
          rw [hd] at h
          simp at h

/-- Every active AOI gets exactly one entry in the cycle report, failures
included: the processed ids are the active ids, in order. -/
theorem runAois_ids (env : MonitorEnv) :
    ∀ (db : DB) (l : List AOIRec),
      ((runAois env db l).2).map Prod.fst = l.map AOIRec.id := by
  intro db l
  induction l generalizing db with
  | nil => rfl
  | cons aoi rest ih =>
    simp only [runAois]
    cases h : check_aoi env db aoi with
    | ok p =>
      obtain ⟨db', out⟩ := p
      simp [ih]
    | error e =>
      simp [ih]

/-! ### Frame lemmas: the pinned viewing-geometry fields -/

/-- The three viewing-geometry fields pinned at AOI creation. -/
def orbitFields (x : AOIRec) : Option String × Option Int × Option String :=
  (x.orbit_direction, x.relative_orbit_number, x.platform_number)

theorem orbitFrame_map {l : List AOIRec} {f : AOIRec → AOIRec}
    (hf : ∀ x, (f x).id = x.id ∧ orbitFields (f x) = orbitFields x) :
    ∀ x ∈ l.map f, ∃ y ∈ l, x.id = y.id ∧ orbitFields x = orbitFields y := by
  intro x hx
  obtain ⟨y, hy, rfl⟩ := List.mem_map.mp hx
  exact ⟨y, hy, (hf y).1, (hf y).2⟩

theorem setLastChecked_orbit_frame (db : DB) (i t : Nat) :
    ∀ x ∈ (setLastChecked db i t).aois,
      ∃ y ∈ db.aois, x.id = y.id ∧ orbitFields x = orbitFields y := by
  intro x hx
  simp only [setLastChecked] at hx
  refine orbitFrame_map ?_ x hx
  intro z
  by_cases hz : (z.id == i) = true <;> simp [hz, orbitFields]

theorem commitAnalysis_orbit_frame (db : DB) (i : Nat) (a : AnalysisRec) (t : Nat) :
    ∀ x ∈ (commitAnalysis db i a t).aois,
      ∃ y ∈ db.aois, x.id = y.id ∧ orbitFields x = orbitFields y := by
  intro x hx
  simp only [commitAnalysis] at hx
  refine orbitFrame_map ?_ x hx
  intro z
  by_cases hz : (z.id == i) = true <;> simp [hz, orbitFields]

theorem check_aoi_orbit_frame {env : MonitorEnv} {db : DB} {aoi : AOIRec}
    {db' : DB} {out : CheckOutcome}
    (h : check_aoi env db aoi = .ok (db', out)) :
    ∀ x ∈ db'.aois, ∃ y ∈ db.aois, x.id = y.id ∧ orbitFields x = orbitFields y := by
  rcases check_aoi_db_shape h with rfl | rfl | ⟨a, rfl⟩
  · exact fun x hx => ⟨x, hx, rfl, rfl⟩
  · exact setLastChecked_orbit_frame db aoi.id env.now
  · exact commitAnalysis_orbit_frame db aoi.id a env.now

theorem runAois_orbit_frame (env : MonitorEnv) :
    ∀ (db : DB) (l : List AOIRec),
      ∀ x ∈ (runAois env db l).1.aois,
        ∃ y ∈ db.aois, x.id = y.id ∧ orbitFields x = orbitFields y := by
  intro db l
  induction l generalizing db with
  | nil => exact fun x hx => ⟨x, hx, rfl, rfl⟩
  | cons aoi rest ih =>
    simp only [runAois]
    cases h : check_aoi env db aoi with
    | ok p =>
      obtain ⟨db1, out⟩ := p
      simp only
      intro x hx
      obtain ⟨y, hy, hid, horb⟩ := ih db1 x hx
      obtain ⟨z, hz, hid2, horb2⟩ := check_aoi_orbit_frame h y hy
      exact ⟨z, hz, hid.trans hid2, horb.trans horb2⟩
    | error e =>
      simp only
      exact ih db

theorem check_all_aois_orbit_frame (env : MonitorEnv) (db : DB) :
    ∀ x ∈ (check_all_aois env db).1.aois,
      ∃ y ∈ db.aois, x.id = y.id ∧ orbitFields x = orbitFields y := by
  unfold check_all_aois
  simp only
  split
  · exact fun x hx => ⟨x, hx, rfl, rfl⟩
  · exact runAois_orbit_frame env db _

/-- Shape of the database after `manual_analyze`. -/
theorem manual_analyze_db_shape {env : MonitorEnv} {ck : Bool} {db : DB}
    {aid : Nat} {db' : DB} {resp : ManualResp}
    (h : manual_analyze env ck db aid = (db', resp)) :
    db' = db ∨ ∃ i a, db' = commitAnalysis db i a env.now := by
  unfold manual_analyze at h
  cases hf : findAoi db aid with
  | none => rw [hf] at h; exact Or.inl (congrArg Prod.fst h).symm
  | some aoi =>
    rw [hf] at h
    simp only at h
    cases hl : lastAnalysisFor db aid with
    | none =>
      rw [hl] at h
      exact Or.inl (congrArg Prod.fst h).symm
    | some last =>
      rw [hl] at h
      simp only at h
      split at h
      · exact Or.inl (congrArg Prod.fst h).symm
      cases hc : check_for_new_images env.catalog aoi.geometry
          last.new_image_date env.now aoi.orbit_direction
          aoi.relative_orbit_number none with
      | nil =>
        rw [hc] at h
        exact Or.inl (congrArg Prod.fst h).symm
      | cons first rest =>
        rw [hc] at h
        simp only at h
        cases hd : detect_changes_for_aoi env.catalog env.remote aoi.geometry
            last.new_image_date first.date (some aoi.threshold_db)
            env.cfg_change_threshold_db with
        | raised msg => rw [hd] at h; exact Or.inl (congrArg Prod.fst h).symm
        | errDict msg => rw [hd] at h; exact Or.inl (congrArg Prod.fst h).symm
        | ok results =>
          rw [hd] at h
          simp only at h
          split at h
          · exact Or.inl (congrArg Prod.fst h).symm
          · exact Or.inr ⟨aoi.id, _, (congrArg Prod.fst h).symm⟩

/-- Shape of the database after `test_analysis`: unchanged, or one analysis
appended (AOI rows untouched). -/
theorem test_analysis_db_shape {env : MonitorEnv} {ck : Bool} {db : DB}
    {aid : Nat} {db' : DB} {resp : TestResp}
    (h : test_analysis env ck db aid = (db', resp)) :
    db' = db ∨ ∃ a, db' = addAnalysis db a := by
  unfold test_analysis at h
  cases hf : findAoi db aid with
  | none => rw [hf] at h; exact Or.inl (congrArg Prod.fst h).symm
  | some aoi =>
    rw [hf] at h
    simp only at h
    split at h
    · exact Or.inl (congrArg Prod.fst h).symm
    split at h
    · rename_i image1 image2 _
      split at h
      · exact Or.inl (congrArg Prod.fst h).symm
      · rename_i results _
        split at h
        · exact Or.inl (congrArg Prod.fst h).symm
        · exact Or.inr ⟨_, (congrArg Prod.fst h).symm⟩
    · exact Or.inl (congrArg Prod.fst h).symm

theorem update_aoi_orbit_frame {ck : Bool} {db : DB} {aid : Nat}
    {data : UpdateRequest} :
    ∀ x ∈ (update_aoi ck db aid data).1.aois,
      ∃ y ∈ db.aois, x.id = y.id ∧ orbitFields x = orbitFields y := by
  unfold update_aoi
  split
  · exact fun x hx => ⟨x, hx, rfl, rfl⟩
  split
  · exact fun x hx => ⟨x, hx, rfl, rfl⟩
  · intro x hx
    simp only at hx
    refine orbitFrame_map ?_ x hx
    intro z
    by_cases hz : (z.id == aid) = true <;> simp [hz, orbitFields]

theorem delete_aoi_orbit_frame {ck : Bool} {db : DB} {aid : Nat} :
    ∀ x ∈ (delete_aoi ck db aid).1.aois,
      ∃ y ∈ db.aois, x.id = y.id ∧ orbitFields x = orbitFields y := by
  unfold delete_aoi
  split
  · exact fun x hx => ⟨x, hx, rfl, rfl⟩
  split
  · exact fun x hx => ⟨x, hx, rfl, rfl⟩
  · intro x hx
    simp only at hx
    exact ⟨x, List.mem_of_mem_filter hx, rfl, rfl⟩

theorem feedback_orbit_frame {ck : Bool} {db : DB} {aid : Nat}
    {data : FeedbackRequest} :
    ∀ x ∈ (mark_false_positive ck db aid data).1.aois,
      ∃ y ∈ db.aois, x.id = y.id ∧ orbitFields x = orbitFields y := by
  unfold mark_false_positive
  split
  · exact fun x hx => ⟨x, hx, rfl, rfl⟩
  split
  · exact fun x hx => ⟨x, hx, rfl, rfl⟩
  · exact fun x hx => ⟨x, hx, rfl, rfl⟩

/-- The endpoint `create_aoi` touches the orbit fields only of the freshly inserted AOI,
whose id is the allocator value `db.next_aoi_id`. -/
theorem create_aoi_orbit_frame {env : MonitorEnv} {g ck : Bool} {db : DB}
    {data : CreateRequest} :
    ∀ x ∈ (create_aoi env g ck db data).1.aois,
      (∃ y ∈ db.aois, x.id = y.id ∧ orbitFields x = orbitFields y) ∨
        x.id = db.next_aoi_id := by
  unfold create_aoi
  split
  · exact fun x hx => Or.inl ⟨x, hx, rfl, rfl⟩
  split
  · exact fun x hx => Or.inl ⟨x, hx, rfl, rfl⟩
  split
  · -- no GEE baseline: aois = db.aois ++ [fresh]
    intro x hx
    simp only at hx
    rw [List.mem_append] at hx
    rcases hx with hx | hx
    · exact Or.inl ⟨x, hx, rfl, rfl⟩
    · rw [List.mem_singleton] at hx
      subst hx
      exact Or.inr rfl
  simp only
  split
  · -- no image found: same shape
    intro x hx
    simp only at hx
    rw [List.mem_append] at hx
    rcases hx with hx | hx
    · exact Or.inl ⟨x, hx, rfl, rfl⟩
    · rw [List.mem_singleton] at hx
      subst hx
      exact Or.inr rfl
  · -- baseline initialised: map over db.aois ++ [fresh]
    intro x hx
    simp only at hx
    rw [List.mem_map] at hx
    obtain ⟨y, hy, rfl⟩ := hx
    rw [List.mem_append] at hy
    by_cases hid : (y.id == db.next_aoi_id) = true
    · rw [beq_iff_eq] at hid
      simp only [hid, beq_self_eq_true, if_true]
      exact Or.inr trivial
    · simp only [hid, if_false]
      rcases hy with hy | hy
      · exact Or.inl ⟨y, hy, rfl, rfl⟩
      · rw [List.mem_singleton] at hy
        subst hy
        simp at hid

/-- Members with equal ids of an id-unique list are equal. -/
theorem eq_of_mem_uniq {l : List AOIRec}
    (hu : l.Pairwise (fun a b => a.id ≠ b.id)) {a b : AOIRec}
    (ha : a ∈ l) (hb : b ∈ l) (heq : a.id = b.id) : a = b := by
  induction l with
  | nil => cases ha
  | cons z t ih =>
    rw [List.pairwise_cons] at hu
    rw [List.mem_cons] at ha hb
    rcases ha with rfl | ha
    · rcases hb with rfl | hb
      · rfl
      · exact absurd heq (hu.1 b hb)
    · rcases hb with rfl | hb
      · exact absurd heq.symm (hu.1 a ha)
      · exact ih hu.2 ha hb

/-- After any state-changing operation, an AOI row sharing the id of a
pre-existing AOI either keeps that AOI's orbit fields, or is the AOI newly
inserted by `create_aoi` (whose id is the allocator value). -/
theorem applyOp_orbit_frame (env : MonitorEnv) (db : DB) (op : Op) :
    ∀ x ∈ (applyOp env db op).aois,
      (∃ y ∈ db.aois, x.id = y.id ∧ orbitFields x = orbitFields y) ∨
        db.next_aoi_id ≤ x.id := by
  cases op with
  | createAoi d g c =>
    intro x hx
    rcases create_aoi_orbit_frame x hx with h | h
    · exact Or.inl h
    · exact Or.inr (le_of_eq h.symm)
  | updateAoi i d c => exact fun x hx => Or.inl (update_aoi_orbit_frame x hx)
  | deleteAoi i c => exact fun x hx => Or.inl (delete_aoi_orbit_frame x hx)
  | manualAnalyze i c =>
    intro x hx
    simp only [applyOp] at hx
    rcases hm : manual_analyze env c db i with ⟨db', resp⟩
    rw [hm] at hx
    rcases manual_analyze_db_shape hm with rfl | ⟨j, a, rfl⟩
    · exact Or.inl ⟨x, hx, rfl, rfl⟩
    · exact Or.inl (commitAnalysis_orbit_frame db j a env.now x hx)
  | testAnalysis i c =>
    intro x hx
    simp only [applyOp] at hx
    rcases hm : test_analysis env c db i with ⟨db', resp⟩
    rw [hm] at hx
    rcases test_analysis_db_shape hm with rfl | ⟨a, rfl⟩
    · exact Or.inl ⟨x, hx, rfl, rfl⟩
    · exact Or.inl ⟨x, by simpa [addAnalysis] using hx, rfl, rfl⟩
  | feedback i d c => exact fun x hx => Or.inl (feedback_orbit_frame x hx)
  | monitorCycle => exact fun x hx => Or.inl (check_all_aois_orbit_frame env db x hx)

/-! ### Claim theorems -/

/-- C3: for every analysis committed by the monitoring loop, the webhook
notifier is invoked if and only if the detector's `changes_detected` flag of
that analysis is true, and that flag was set by comparing the computed
changed area (`changed_pixels · 0.0001 km²`) against
`Config.MIN_CHANGE_AREA_SQKM`. -/
theorem c3_notify_iff_threshold {env : MonitorEnv} {db : DB} {aoi : AOIRec}
    {db' : DB} {a : AnalysisRec} {alert : Option SendResult}
    (h : check_aoi env db aoi = .ok (db', .analyzed a alert)) :
    a ∈ db'.analyses ∧
    alert.isSome = a.changes_detected ∧
    ∃ ref_img new_img stats,
      env.remote ref_img new_img aoi.geometry aoi.threshold_db = .ok stats ∧
      a.changes_detected =
        decide (Config.MIN_CHANGE_AREA_SQKM ≤ stats.changed_pixels * (1/10000)) := by
  obtain ⟨last, c, rest, results, hl, hc, hd, haid, href, hnew, hflag, harea,
    hdb, hsome, hfun⟩ := check_aoi_analyzed_inv h
  obtain ⟨refi, newi, stats, hg1, hg2, hrem, _, _, hfstats, _⟩ := detect_ok_inv hd
  refine ⟨?_, hsome, refi, newi, stats, ?_, ?_⟩
  · rw [hdb]
    simp [commitAnalysis]
  · simpa using hrem
  · rw [hflag, hfstats]

/-- C4: an analysis row appended by the monitoring loop is strictly newer
than every previously stored analysis of the AOI, and its reference date is
the maximal `new_image_date` among the AOI's prior analyses. -/
theorem c4_cursor_strictly_advances {env : MonitorEnv} {db : DB} {aoi : AOIRec}
    {db' : DB} {a : AnalysisRec} {alert : Option SendResult}
    (h : check_aoi env db aoi = .ok (db', .analyzed a alert)) :
    a ∈ db'.analyses ∧
    (∀ p ∈ db.analyses, p.aoi_id = aoi.id → p.new_image_date < a.new_image_date) ∧
    ∃ last, lastAnalysisFor db aoi.id = some last ∧
      a.reference_date = last.new_image_date ∧
      last ∈ db.analyses ∧ last.aoi_id = aoi.id ∧
      ∀ p ∈ db.analyses, p.aoi_id = aoi.id →
        p.new_image_date ≤ last.new_image_date := by
  obtain ⟨last, c, rest, results, hl, hc, hd, haid, href, hnew, hflag, harea,
    hdb, hsome, hfun⟩ := check_aoi_analyzed_inv h
  obtain ⟨refi, newi, stats, hg1, hg2, hrem, hrefact, hnewact, _, _⟩ := detect_ok_inv hd
  have hcmem : c ∈ check_for_new_images env.catalog aoi.geometry
      last.new_image_date env.now none none none := by
    rw [hc]
    exact List.mem_cons_self c rest
  rw [mem_check_for_new_images] at hcmem
  obtain ⟨hcoll, hlt⟩ := hcmem
  rw [mem_collection_none] at hcoll
  obtain ⟨hcc, hcg, _, _, hcm, hcp⟩ := hcoll
  have hdate : newi.date = c.date :=
    get_image_by_date_range_date hcc hcg hcm hcp rfl hg2
  obtain ⟨hlmem, hlaid, hmax⟩ := lastAnalysisFor_spec hl
  refine ⟨?_, ?_, last, hl, href, hlmem, hlaid, hmax⟩
  · rw [hdb]
    simp [commitAnalysis]
  · intro p hp hpid
    have hple := hmax p hp hpid
    rw [hnew, hnewact, hdate]
    omega

/-- C6: all candidates returned to the monitoring loop are strictly newer
than the last analysis, the candidate list is sorted newest-first, and when
the loop analyzes, the analyzed row carries the date of the head candidate,
which is maximal among all candidates. -/
theorem c6_newest_candidate_selected {env : MonitorEnv} {db : DB}
    {aoi : AOIRec} {last : AnalysisRec}
    (hl : lastAnalysisFor db aoi.id = some last) :
    (∀ img ∈ check_for_new_images env.catalog aoi.geometry
        last.new_image_date env.now none none none,
      last.new_image_date < img.date) ∧
    List.Sorted dateGe (check_for_new_images env.catalog aoi.geometry
      last.new_image_date env.now none none none) ∧
    ∀ db' a alert, check_aoi env db aoi = .ok (db', .analyzed a alert) →
      ∃ c rest,
        check_for_new_images env.catalog aoi.geometry last.new_image_date
          env.now none none none = c :: rest ∧
        a.new_image_date = c.date ∧
        ∀ y ∈ check_for_new_images env.catalog aoi.geometry
            last.new_image_date env.now none none none,
          y.date ≤ c.date := by
  refine ⟨?_, sorted_check_for_new_images _ _ _ _ _ _ _, ?_⟩
  · intro img hmem
    exact (mem_check_for_new_images.mp hmem).2
  · intro db' a alert h
    obtain ⟨last', c, rest, results, hl', hc, hd, haid, href, hnew, hflag,
      harea, hdb, hsome, hfun⟩ := check_aoi_analyzed_inv h
    have hll : last = last' := Option.some.inj (hl.symm.trans hl')
    subst hll
    obtain ⟨refi, newi, stats, hg1, hg2, hrem, hrefact, hnewact, _, _⟩ :=
      detect_ok_inv hd
    have hcmem : c ∈ check_for_new_images env.catalog aoi.geometry
        last.new_image_date env.now none none none := by
      rw [hc]
      exact List.mem_cons_self c rest
    rw [mem_check_for_new_images] at hcmem
    obtain ⟨hcoll, hlt⟩ := hcmem
    rw [mem_collection_none] at hcoll
    obtain ⟨hcc, hcg, _, _, hcm, hcp⟩ := hcoll
    have hdate : newi.date = c.date :=
      get_image_by_date_range_date hcc hcg hcm hcp rfl hg2
    refine ⟨c, rest, hc, by rw [hnew, hnewact, hdate], ?_⟩
    exact head_date_max
      (sorted_check_for_new_images env.catalog aoi.geometry
        last.new_image_date env.now none none none)
      (by rw [hc]; rfl)

/-- C7: one monitoring cycle reports on exactly the active AOIs, in order —
a raised exception for one AOI is recorded as a failure and does not stop
the remaining AOIs from being checked. -/
theorem c7_per_aoi_failures_isolated (env : MonitorEnv) (db : DB) :
    ((check_all_aois env db).2).map Prod.fst =
      (db.aois.filter fun a => a.active).map AOIRec.id := by
  unfold check_all_aois
  simp only
  split
  · rename_i hemp
    rw [List.isEmpty_iff] at hemp
    rw [hemp]
    rfl
  · exact runAois_ids env db _

/-- C8: a failure during an AOI's change detection or persistence rolls the
transaction back — the monitoring loop persists nothing for that AOI, and
the manual analyze endpoint answers with a 500 error over an unchanged
database (and can never report success when its commit failed). -/
theorem c8_failures_roll_back :
    (∀ (env : MonitorEnv) (db : DB) (aoi : AOIRec) (db' : DB) (m : String),
      check_aoi env db aoi = .ok (db', .detect_raised m) → db' = db) ∧
    (∀ (env : MonitorEnv) (db : DB) (aoi : AOIRec) (db' : DB),
      check_aoi env db aoi = .ok (db', .persist_error) → db' = db) ∧
    (∀ (env : MonitorEnv) (ck : Bool) (db : DB) (aid : Nat) (db' : DB) (m : String),
      manual_analyze env ck db aid = (db', .server_error m) → db' = db) ∧
    (∀ (env : MonitorEnv) (db : DB) (aid : Nat) (db' : DB) (i : Nat) (cd : Bool),
      manual_analyze env false db aid = (db', .success i cd) → False) :=
  ⟨fun _ _ _ _ _ h => check_aoi_detect_raised_inv h,
   fun _ _ _ _ h => check_aoi_persist_error_inv h,
   fun _ _ _ _ _ _ h => manual_analyze_server_error_inv h,
   fun _ _ _ _ _ _ h => manual_analyze_success_commit h⟩

/-- C9: when no new candidate image exists for an AOI with a baseline, the
loop commits only the `last_checked` touch for that AOI: no analysis row,
no notification, every other field and every other AOI unchanged. -/
theorem c9_no_new_images_frame {env : MonitorEnv} {db : DB} {aoi : AOIRec}
    {db' : DB} (h : check_aoi env db aoi = .ok (db', .no_new_images)) :
    db'.analyses = db.analyses ∧
    db'.next_aoi_id = db.next_aoi_id ∧
    db'.next_analysis_id = db.next_analysis_id ∧
    db'.aois = db.aois.map (fun x =>
      if x.id == aoi.id then { x with last_checked := some env.now } else x) ∧
    (∀ x ∈ db.aois, x.id ≠ aoi.id → x ∈ db'.aois) ∧
    (∀ x ∈ db'.aois, ∃ y ∈ db.aois, x.id = y.id ∧ x.name = y.name ∧
      x.geometry = y.geometry ∧ x.created_date = y.created_date ∧
      x.active = y.active ∧ x.threshold_db = y.threshold_db ∧
      x.orbit_direction = y.orbit_direction ∧
      x.relative_orbit_number = y.relative_orbit_number ∧
      x.platform_number = y.platform_number) := by
  have hshape := check_aoi_no_new_inv h
  subst hshape
  refine ⟨rfl, rfl, rfl, rfl, ?_, ?_⟩
  · intro x hx hne
    simp only [setLastChecked, List.mem_map]
    refine ⟨x, hx, ?_⟩
    have : (x.id == aoi.id) = false := by simpa using hne
    rw [this]
    simp
  · intro x hx
    simp only [setLastChecked, List.mem_map] at hx
    obtain ⟨y, hy, rfl⟩ := hx
    by_cases hz : (y.id == aoi.id) = true <;>
      simp [hz] <;> exact ⟨y, hy, by simp⟩

/-- C5: once an AOI's three viewing-geometry fields are set, no
state-changing operation of the system (in particular the AOI update
endpoint) alters them: any AOI row carrying that id after the operation
still carries the same three fields. -/
theorem c5_orbit_fields_immutable (env : MonitorEnv) (db : DB) (op : Op)
    (aoi : AOIRec)
    (hwf : db.aois.Pairwise (fun a b => a.id ≠ b.id) ∧
      ∀ y ∈ db.aois, y.id < db.next_aoi_id)
    (haoi : aoi ∈ db.aois)
    (hset : aoi.orbit_direction.isSome ∧ aoi.relative_orbit_number.isSome ∧
      aoi.platform_number.isSome) :
    ∀ x ∈ (applyOp env db op).aois, x.id = aoi.id →
      x.orbit_direction = aoi.orbit_direction ∧
      x.relative_orbit_number = aoi.relative_orbit_number ∧
      x.platform_number = aoi.platform_number := by
  intro x hx hid
  rcases applyOp_orbit_frame env db op x hx with ⟨y, hy, hidy, horb⟩ | hnew
  · have hyaoi : y = aoi := eq_of_mem_uniq hwf.1 hy haoi (hidy ▸ hid)
    subst hyaoi
    have h1 : x.orbit_direction = y.orbit_direction := congrArg Prod.fst horb
    have h2 : x.relative_orbit_number = y.relative_orbit_number :=
      congrArg (fun p => p.2.1) horb
    have h3 : x.platform_number = y.platform_number :=
      congrArg (fun p => p.2.2) horb
    exact ⟨h1, h2, h3⟩
  · exact absurd (hid ▸ hnew) (not_le.mpr (hwf.2 aoi haoi))

/-- C2: for a configured webhook URL the payload shape is selected by
substring matching on the URL — `slack.com` wins, then `discord.com`, then
the generic flat object — and the three builders produce the three distinct
top-level shapes. -/
theorem c2_payload_shape_by_url (url : String) (hurl : url ≠ "")
    (base_url : String) (now : Nat) (aoi_name : String)
    (results : AlertResults) (aoi_id : Nat) (post_ok : Bool) :
    (strContains url "slack.com" = true →
      (send_change_alert (notifierInit (some url) "") base_url now aoi_name
        results aoi_id post_ok).requests =
        [(url, build_slack_message base_url aoi_name results aoi_id)] ∧
      Json.keys (build_slack_message base_url aoi_name results aoi_id) =
        ["blocks"]) ∧
    (strContains url "slack.com" = false → strContains url "discord.com" = true →
      (send_change_alert (notifierInit (some url) "") base_url now aoi_name
        results aoi_id post_ok).requests =
        [(url, build_discord_message base_url now aoi_name results aoi_id)] ∧
      Json.keys (build_discord_message base_url now aoi_name results aoi_id) =
        ["embeds"]) ∧
    (strContains url "slack.com" = false → strContains url "discord.com" = false →
      (send_change_alert (notifierInit (some url) "") base_url now aoi_name
        results aoi_id post_ok).requests =
        [(url, build_generic_message base_url aoi_name results aoi_id)] ∧
      Json.keys (build_generic_message base_url aoi_name results aoi_id) =
        ["aoi_name", "aoi_id", "image_date", "changes_detected",
         "change_area_sqkm", "change_percentage", "avg_change_db",
         "change_map_url", "details_url"]) := by
  have hres : notifierInit (some url) "" =
      { webhook_url := url,
        is_slack := strContains url "slack.com",
        is_discord := strContains url "discord.com" } := by
    unfold notifierInit strTruthy
    have : (url == "") = false := by simpa using hurl
    simp [this]
  refine ⟨?_, ?_, ?_⟩
  · intro hs
    constructor
    · rw [hres]
      unfold send_change_alert
      have : (url == "") = false := by simpa using hurl
      simp [this, hs]
    · unfold build_slack_message Json.keys
      simp only
      split <;> rfl
  · intro hs hdsc
    constructor
    · rw [hres]
      unfold send_change_alert
      have : (url == "") = false := by simpa using hurl
      simp [this, hs, hdsc]
    · unfold build_discord_message Json.keys
      simp only
      split <;> rfl
  · intro hs hdsc
    constructor
    · rw [hres]
      unfold send_change_alert
      have : (url == "") = false := by simpa using hurl
      simp [this, hs, hdsc]
    · rfl

/-- C10: with no webhook URL configured (argument `None`/empty and the
config value empty), `send_change_alert` and `test_connection` both return
`False` and attempt no HTTP request. -/
theorem c10_no_webhook_no_request (arg : Option String) (cfg_url : String)
    (harg : strTruthy arg = false) (hcfg : cfg_url = "")
    (base_url : String) (now : Nat) (aoi_name : String)
    (results : AlertResults) (aoi_id : Nat) (post_ok : Bool) :
    (send_change_alert (notifierInit arg cfg_url) base_url now aoi_name
      results aoi_id post_ok).returned = false ∧
    (send_change_alert (notifierInit arg cfg_url) base_url now aoi_name
      results aoi_id post_ok).requests = [] ∧
    (test_connection (notifierInit arg cfg_url) post_ok).returned = false ∧
    (test_connection (notifierInit arg cfg_url) post_ok).requests = [] := by
  subst hcfg
  have hres : notifierInit arg "" =
      { webhook_url := "", is_slack := false, is_discord := false } := by
    unfold notifierInit
    simp [harg]
  rw [hres]
  unfold send_change_alert test_connection
  simp

/-! ### Concrete fixtures (for the code-bug evaluation and the witnesses) -/

/-- A sample epoch-millisecond timestamp (2023-11-14T22:13:20Z). -/
def d0 : Nat := 1700000000000

/-- Baseline image: ascending pass, relative orbit 44, platform A. -/
def refImgW : Image :=
  { date := d0, image_id := "S1A_IW_0", orbit_direction := "ASCENDING",
    relative_orbit_number := 44, platform_number := "A", footprint := [7],
    instrument_mode := "IW", polarisations := ["VV", "VH"] }

/-- A newer image on a different viewing geometry: descending pass,
relative orbit 117, platform C. -/
def newImgW : Image :=
  { date := d0 + 5 * dayMs, image_id := "S1C_IW_1",
    orbit_direction := "DESCENDING", relative_orbit_number := 117,
    platform_number := "C", footprint := [7], instrument_mode := "IW",
    polarisations := ["VV", "VH"] }

/-- A newer image on the pinned viewing geometry. -/
def ascImgW : Image :=
  { date := d0 + 6 * dayMs, image_id := "S1A_IW_2",
    orbit_direction := "ASCENDING", relative_orbit_number := 44,
    platform_number := "A", footprint := [7], instrument_mode := "IW",
    polarisations := ["VV", "VH"] }

/-- Remote statistics: 50 changed pixels = 0.005 km², below the
0.01 km² minimum change area. -/
def statsSmallW : RemoteStats :=
  { changed_pixels := 50, avg_change_db := 5, aoi_area_sqkm := 10,
    change_map_url := "http://cmap", ref_image_url := "http://ref",
    new_image_url := "http://new" }

def remoteW : RemoteCalc := fun _ _ _ _ => .ok statsSmallW

/-- An AOI with the viewing geometry pinned to the first image. -/
def aoiW : AOIRec :=
  { id := 1, name := "Harbor", geometry := 7, created_date := d0,
    active := true, last_checked := some d0, threshold_db := 3,
    orbit_direction := some "ASCENDING", relative_orbit_number := some 44,
    platform_number := some "A" }

/-- The AOI's baseline analysis. -/
def baselineW : AnalysisRec :=
  { id := 1, aoi_id := 1, reference_date := d0, new_image_date := d0,
    analysis_date := d0, changes_detected := false, change_score := 0,
    change_area_sqkm := 0, change_percentage := 0, change_map_url := none,
    ref_image_url := some "", new_image_url := some "",
    notes := some "Baseline image", false_positive := false, user_notes := none }

def dbW : DB :=
  { aois := [aoiW], analyses := [baselineW], next_aoi_id := 2,
    next_analysis_id := 2 }

def envW : MonitorEnv :=
  { catalog := [refImgW, newImgW], now := d0 + 10 * dayMs, remote := remoteW,
    query_ok := fun _ => true, commit_ok := fun _ => true,
    post_ok := fun _ => true, webhook_url := "",
    base_url := "http://localhost:5000", cfg_change_threshold_db := 3 }

/-- The analysis row the loop commits on the `envW` fixture. -/
def aW : AnalysisRec :=
  { id := 2, aoi_id := 1, reference_date := d0,
    new_image_date := d0 + 5 * dayMs, analysis_date := d0 + 10 * dayMs,
    changes_detected := false, change_score := 5, change_area_sqkm := 1/200,
    change_percentage := 1/20, change_map_url := some "http://cmap",
    ref_image_url := some "http://ref", new_image_url := some "http://new",
    notes := some "Automatic analysis (threshold: 3 dB)",
    false_positive := false, user_notes := none }

def envRaiseW : MonitorEnv :=
  { envW with remote := fun _ _ _ _ => .error "remote down" }

def envNoCommitW : MonitorEnv := { envW with commit_ok := fun _ => false }

def envNoNewW : MonitorEnv := { envW with catalog := [refImgW] }

def envManualW : MonitorEnv := { envW with catalog := [refImgW, ascImgW] }

def updReqW : UpdateRequest :=
  { name := some "Renamed", active := some false, threshold_db := some 5 }

def alertResW : AlertResults :=
  { new_date_actual := d0, change_area_sqkm := 1/2, change_percentage := 5,
    avg_change_db := 4, change_map_url := "" }

/-- C1 (code bug): contrary to the spec, `SatelliteMonitor.check_aoi` queries
the catalog with no orbit filters. On a catalog whose only newer image lies
on a different pass and relative orbit than the AOI's pinned ones, the query
the spec describes (pinned direction and relative orbit, platform free)
returns nothing, yet the loop's actual query returns the mismatched image
and the loop analyzes it. -/
theorem c1_monitor_query_ignores_pinned_orbit :
    aoiW.orbit_direction = some "ASCENDING" ∧
    aoiW.relative_orbit_number = some 44 ∧
    newImgW.orbit_direction = "DESCENDING" ∧
    newImgW.relative_orbit_number = 117 ∧
    lastAnalysisFor dbW aoiW.id = some baselineW ∧
    check_for_new_images envW.catalog aoiW.geometry baselineW.new_image_date
      envW.now aoiW.orbit_direction aoiW.relative_orbit_number none = [] ∧
    check_for_new_images envW.catalog aoiW.geometry baselineW.new_image_date
      envW.now none none none = [newImgW] ∧
    check_aoi envW dbW aoiW =
      .ok (commitAnalysis dbW aoiW.id aW envW.now, .analyzed aW none) ∧
    aW.new_image_date = newImgW.date :=
  ⟨rfl, rfl, rfl, rfl, by rfl, by rfl, by rfl, by with_unfolding_all rfl, by rfl⟩

/-! ### Witnesses: the claim theorems hold at the concrete fixtures -/

/-- Witness for C3 at the concrete fixture (50 changed pixels: below the
threshold, so no notification). -/
theorem c3_witness :
    aW ∈ (commitAnalysis dbW aoiW.id aW envW.now).analyses ∧
    (none : Option SendResult).isSome = aW.changes_detected ∧
    ∃ ref_img new_img stats,
      envW.remote ref_img new_img aoiW.geometry aoiW.threshold_db = .ok stats ∧
      aW.changes_detected =
        decide (Config.MIN_CHANGE_AREA_SQKM ≤ stats.changed_pixels * (1/10000)) :=
  c3_notify_iff_threshold (show check_aoi envW dbW aoiW =
    .ok (commitAnalysis dbW aoiW.id aW envW.now, .analyzed aW none) by
      with_unfolding_all rfl)

/-- Witness for C4 at the concrete fixture. -/
theorem c4_witness :
    aW ∈ (commitAnalysis dbW aoiW.id aW envW.now).analyses ∧
    (∀ p ∈ dbW.analyses, p.aoi_id = aoiW.id →
      p.new_image_date < aW.new_image_date) ∧
    ∃ last, lastAnalysisFor dbW aoiW.id = some last ∧
      aW.reference_date = last.new_image_date ∧
      last ∈ dbW.analyses ∧ last.aoi_id = aoiW.id ∧
      ∀ p ∈ dbW.analyses, p.aoi_id = aoiW.id →
        p.new_image_date ≤ last.new_image_date :=
  c4_cursor_strictly_advances (show check_aoi envW dbW aoiW =
    .ok (commitAnalysis dbW aoiW.id aW envW.now, .analyzed aW none) by
      with_unfolding_all rfl)

/-- The AOI row as `update_aoi` leaves it on the C5 witness fixture. -/
def aoiUpdatedW : AOIRec :=
  { aoiW with name := "Renamed", active := false, threshold_db := 5 }

/-- Witness for C5 at the concrete fixture: an update request renaming the
AOI, deactivating it and changing its threshold leaves the pinned fields. -/
theorem c5_witness :
    aoiUpdatedW.orbit_direction = aoiW.orbit_direction ∧
    aoiUpdatedW.relative_orbit_number = aoiW.relative_orbit_number ∧
    aoiUpdatedW.platform_number = aoiW.platform_number :=
  c5_orbit_fields_immutable envW dbW (Op.updateAoi 1 updReqW true) aoiW
    ⟨by simp [dbW], by intro y hy; simp only [dbW, List.mem_singleton] at hy; subst hy; decide⟩
    (List.mem_singleton_self aoiW) ⟨rfl, rfl, rfl⟩
    aoiUpdatedW (by decide) (by rfl)

/-- Witness for C6 at the concrete fixture. -/
theorem c6_witness :
    (∀ img ∈ check_for_new_images envW.catalog aoiW.geometry
        baselineW.new_image_date envW.now none none none,
      baselineW.new_image_date < img.date) ∧
    List.Sorted dateGe (check_for_new_images envW.catalog aoiW.geometry
      baselineW.new_image_date envW.now none none none) ∧
    ∀ db' a alert, check_aoi envW dbW aoiW = .ok (db', .analyzed a alert) →
      ∃ c rest,
        check_for_new_images envW.catalog aoiW.geometry
          baselineW.new_image_date envW.now none none none = c :: rest ∧
        a.new_image_date = c.date ∧
        ∀ y ∈ check_for_new_images envW.catalog aoiW.geometry
            baselineW.new_image_date envW.now none none none,
          y.date ≤ c.date :=
  @c6_newest_candidate_selected envW dbW aoiW baselineW (by rfl)

/-- Witness for C8 at the concrete fixtures: a raising remote call, a failing
commit in the loop, and a failing commit in the manual endpoint. -/
theorem c8_witness :
    check_aoi envRaiseW dbW aoiW = .ok (dbW, .detect_raised "remote down") ∧
    check_aoi envNoCommitW dbW aoiW = .ok (dbW, .persist_error) ∧
    manual_analyze envManualW false dbW 1 = (dbW, .server_error "commit failed") ∧
    dbW = dbW ∧ dbW = dbW ∧ dbW = dbW :=
  ⟨by rfl, by with_unfolding_all rfl, by with_unfolding_all rfl,
   c8_failures_roll_back.1 envRaiseW dbW aoiW dbW "remote down" (by rfl),
   c8_failures_roll_back.2.1 envNoCommitW dbW aoiW dbW (by with_unfolding_all rfl),
   c8_failures_roll_back.2.2.1 envManualW false dbW 1 dbW "commit failed"
     (by with_unfolding_all rfl)⟩

/-- Witness for C9 at the concrete fixture (catalog holding only the
baseline image). -/
theorem c9_witness :
    (setLastChecked dbW aoiW.id envNoNewW.now).analyses = dbW.analyses ∧
    (setLastChecked dbW aoiW.id envNoNewW.now).next_aoi_id = dbW.next_aoi_id ∧
    (setLastChecked dbW aoiW.id envNoNewW.now).next_analysis_id =
      dbW.next_analysis_id ∧
    (setLastChecked dbW aoiW.id envNoNewW.now).aois = dbW.aois.map (fun x =>
      if x.id == aoiW.id then { x with last_checked := some envNoNewW.now }
      else x) ∧
    (∀ x ∈ dbW.aois, x.id ≠ aoiW.id →
      x ∈ (setLastChecked dbW aoiW.id envNoNewW.now).aois) ∧
    (∀ x ∈ (setLastChecked dbW aoiW.id envNoNewW.now).aois,
      ∃ y ∈ dbW.aois, x.id = y.id ∧ x.name = y.name ∧
        x.geometry = y.geometry ∧ x.created_date = y.created_date ∧
        x.active = y.active ∧ x.threshold_db = y.threshold_db ∧
        x.orbit_direction = y.orbit_direction ∧
        x.relative_orbit_number = y.relative_orbit_number ∧
        x.platform_number = y.platform_number) :=
  @c9_no_new_images_frame envNoNewW dbW aoiW
    (setLastChecked dbW aoiW.id envNoNewW.now) (by rfl)

/-- A Slack webhook URL for the C2 witness. -/
def slackUrlW : String := "https://hooks.slack.com/services/T000/B000/XXX"

/-- Witness for C2 at a Slack URL. -/
theorem c2_witness :
    (strContains slackUrlW "slack.com" = true →
      (send_change_alert (notifierInit (some slackUrlW) "")
        "http://localhost:5000" d0 "Harbor" alertResW 1 true).requests =
        [(slackUrlW,
          build_slack_message "http://localhost:5000" "Harbor" alertResW 1)] ∧
      Json.keys (build_slack_message "http://localhost:5000" "Harbor"
        alertResW 1) = ["blocks"]) ∧
    (strContains slackUrlW "slack.com" = false →
      strContains slackUrlW "discord.com" = true →
      (send_change_alert (notifierInit (some slackUrlW) "")
        "http://localhost:5000" d0 "Harbor" alertResW 1 true).requests =
        [(slackUrlW,
          build_discord_message "http://localhost:5000" d0 "Harbor" alertResW 1)] ∧
      Json.keys (build_discord_message "http://localhost:5000" d0 "Harbor"
        alertResW 1) = ["embeds"]) ∧
    (strContains slackUrlW "slack.com" = false →
      strContains slackUrlW "discord.com" = false →
      (send_change_alert (notifierInit (some slackUrlW) "")
        "http://localhost:5000" d0 "Harbor" alertResW 1 true).requests =
        [(slackUrlW,
          build_generic_message "http://localhost:5000" "Harbor" alertResW 1)] ∧
      Json.keys (build_generic_message "http://localhost:5000" "Harbor"
        alertResW 1) =
        ["aoi_name", "aoi_id", "image_date", "changes_detected",
         "change_area_sqkm", "change_percentage", "avg_change_db",
         "change_map_url", "details_url"]) :=
  c2_payload_shape_by_url slackUrlW (by decide) "http://localhost:5000" d0
    "Harbor" alertResW 1 true

/-- Witness for C10 with no webhook URL configured anywhere. -/
theorem c10_witness :
    (send_change_alert (notifierInit none "") "http://localhost:5000" d0
      "Harbor" alertResW 1 true).returned = false ∧
    (send_change_alert (notifierInit none "") "http://localhost:5000" d0
      "Harbor" alertResW 1 true).requests = [] ∧
    (test_connection (notifierInit none "") true).returned = false ∧
    (test_connection (notifierInit none "") true).requests = [] :=
  c10_no_webhook_no_request none "" (by rfl) rfl "http://localhost:5000" d0
    "Harbor" alertResW 1 true

end S1
